import Mathlib

/-!
Verification development for the ovn-kubernetes-dpf repository.

Part 1 models the DPU CNI provisioner (the reconciliation engine running one
convergence pass, `RunOnce`, in Internal or External IPAM mode).  The
implementation of that component is not shipped under `src/` — only its Ginkgo
test suite is — so the definitions in that part are modelled from the
specification (sections 4.1-4.4, 6) and are pinned by the concrete call
sequences asserted in the test suite.  Collaborator calls (network helper, OVS
client, process executor, clock, Kubernetes client) are represented by an
explicit `World` record of observable state plus a trace of issued calls.

Part 2 embeds the Pod admission webhook
(`internal/ovnkubernetesresourceinjector/webhooks/webhook.go`), which is
present in `src/`, as pure Lean functions; the two Kubernetes-client reads it
performs are passed in as `Except` parameters.
-/

/-! ## IPv4 addresses and networks -/

/-- An IPv4 address with a mask length, as produced by `netlink.ParseIPNet`:
the address keeps whatever host bits it was given. -/
structure IPNet where
  ip : Nat
  maskLen : Nat
deriving DecidableEq, Repr

/-- Build an IPv4 address from its four octets. -/
def mkIP (a b c d : Nat) : Nat := ((a * 256 + b) * 256 + c) * 256 + d

/-- Number of host bits of a network. -/
def hostBits (n : IPNet) : Nat := 32 - n.maskLen

/-- The network address: the IP with its host bits zeroed (what Go's
`net.IPNet.IP.Mask(...)` / `net.ParseCIDR` of the string produce). -/
def netAddr (n : IPNet) : Nat := n.ip / 2 ^ hostBits n * 2 ^ hostBits n

/-- The natural network of an address: its own prefix applied to itself
(e.g. the natural network of 192.168.1.1/24 is 192.168.1.0/24). -/
def naturalNetwork (n : IPNet) : IPNet := ⟨netAddr n, n.maskLen⟩

/-- Dotted-quad rendering of an IPv4 address. -/
def ipToString (ip : Nat) : String :=
  toString (ip / 16777216 % 256) ++ "." ++ toString (ip / 65536 % 256) ++ "." ++
    toString (ip / 256 % 256) ++ "." ++ toString (ip % 256)

/-- CIDR rendering, printing the stored address verbatim (like
`net.IPNet.String()`). -/
def cidrToString (n : IPNet) : String := ipToString n.ip ++ "/" ++ toString n.maskLen

/-! ## Provisioner data model

Modelled from the spec: the `ProvisionerConfig` of §3, with the addressing
mode as a closed tagged variant carrying only its own mandatory fields (§9). -/

/-- Modelled from the spec: the two mutually exclusive addressing modes of the
missing `dpucniprovisioner` package.  Internal mode carries the VTEP IP+prefix,
the gateway IP and the physical-function IP; External mode carries the
gateway-discovery probe network. -/
inductive IPAMMode where
  | internalIPAM (vtepIPNet : IPNet) (gateway : Nat) (pfIPNet : IPNet)
  | externalIPAM (gatewayDiscoveryNetwork : IPNet)
deriving DecidableEq, Repr

/-- Modelled from the spec: the immutable configuration supplied at
construction of the missing provisioner (§3 ProvisionerConfig). -/
structure Config where
  mode : IPAMMode
  vtepCIDR : IPNet
  hostCIDR : IPNet
  nodeName : String
  mtu : Nat
deriving DecidableEq, Repr

/-- An OS route as issued through the network-helper collaborator:
destination, next hop, device, optional metric and optional table. -/
structure Route where
  dst : IPNet
  via : Nat
  dev : String
  metric : Option Nat
  table : Option Nat
deriving DecidableEq, Repr

/-- A source-based policy rule: source match, routing table, priority. -/
structure Rule where
  src : IPNet
  table : Nat
  priority : Nat
deriving DecidableEq, Repr

/-- Modelled from the spec: the reconciler state that persists across passes —
the timestamp of the last disruptive netplan apply (§3 ApplyThrottle). DHCP
responder liveness is observed through the world (§3 DHCP responder handle). -/
structure ProvState where
  lastApply : Option Nat
deriving DecidableEq, Repr

/-- The observable external state the provisioner converges: addresses on the
relevant links, routes, rules, DHCP responder liveness, rendered files, the
clock, and the answers of the query-only collaborators. -/
structure World where
  brOvnAddrs : List IPNet
  routes : List Route
  rules : List Rule
  cni0Addrs : List IPNet
  brCommChAddrs : List IPNet
  dnsmasqAlive : Bool
  files : List (String × String)
  pfMAC : String
  defaultGw : Nat
  discoveredGw : Nat
  now : Nat
  nodePatchOK : Bool
  hostNodeName : String

/-- A mutating (or identity-programming) call issued to a collaborator during
one pass; queries are not recorded. -/
inductive Call where
  | patchNode (name : String)
  | setLinkIPAddress (link : String) (addr : IPNet)
  | setLinkUp (link : String)
  | addRoute (dst : IPNet) (via : Nat) (dev : String) (metric : Option Nat) (table : Option Nat)
  | addRule (src : IPNet) (table : Nat) (priority : Nat)
  | spawnDHCP (args : List String)
  | netplanApply
  | writeFile (path : String) (content : String)
  | setOVNEncapIP (ip : Nat)
  | setKubernetesHostNodeName (name : String)
  | setHostName (name : String)
deriving DecidableEq, Repr

/-- Whether a call is one of the redundancy-sensitive mutations: an address
set, a route add, a rule add, or a DHCP responder spawn. -/
def Call.isMutAdd : Call → Bool
  | .setLinkIPAddress _ _ => true
  | .addRoute _ _ _ _ _ => true
  | .addRule _ _ _ => true
  | .spawnDHCP _ => true
  | _ => false

/-- Whether a call is an invocation of the bridge-reconfiguration apply
command (`netplan apply`). -/
def Call.isNetplanApply : Call → Bool
  | .netplanApply => true
  | _ => false

/-- Whether a call spawns the DHCP responder. -/
def Call.isSpawn : Call → Bool
  | .spawnDHCP _ => true
  | _ => false

/-- Whether a call is the OVS encapsulation-IP setter. -/
def Call.isEncap : Call → Bool
  | .setOVNEncapIP _ => true
  | _ => false

/-- True when a trace contains none of the redundancy-sensitive mutations. -/
def noMutAdds (cs : List Call) : Bool := cs.all fun c => !c.isMutAdd

/-- Number of `netplan apply` invocations in a trace. -/
def netplanCount (cs : List Call) : Nat := cs.countP Call.isNetplanApply

/-- Number of DHCP responder spawns in a trace. -/
def spawnCount (cs : List Call) : Nat := cs.countP Call.isSpawn

/-- Errors a pass can return. -/
inductive PErr where
  | nodePatchFailed
  | wrongAddressCount (link : String)
  | noBrOvnAddress
  | multipleBrOvnAddresses
deriving DecidableEq, Repr

/-! ## Names and file contents -/

/-- The overlay bridge. -/
def brOvn : String := "br-ovn"

/-- The cluster pod-network interface. -/
def cni0 : String := "cni0"

/-- The out-of-band management interface. -/
def brCommCh : String := "br-comm-ch"

/-- Path of the rendered OVN gateway stanza. -/
def ovnConfPath : String := "/etc/openvswitch/ovn_k8s.conf"

/-- Path of the rendered netplan bridge definition (External mode). -/
def netplanPath : String := "/etc/netplan/80-br-ovn.yaml"

/-- The fixed netplan bridge definition rendered in External mode, exactly as
asserted by the test suite. -/
def netplanFileContent : String :=
  "\nnetwork:\n  renderer: networkd\n  version: 2\n  bridges:\n    br-ovn:\n      dhcp4: yes\n      dhcp4-overrides:\n        use-dns: no\n      openvswitch: \x7b\x7d\n"

/-- The OVN gateway stanza: exactly two configuration lines under a
`[Gateway]` header. -/
def gatewayStanza (gw : Nat) (routerSubnet : IPNet) : String :=
  "[Gateway]\nnext-hop=" ++ ipToString gw ++ "\nrouter-subnet=" ++ cidrToString routerSubnet ++ "\n"

/-- Modelled from the spec: the MTU value advertised by the DHCP responder,
the configured (overlay) MTU rounded up per convention to the underlying MTU;
pinned by the tests (8940 ↦ 9000, 1440 ↦ 1500), i.e. an overhead of 60. -/
def dhcpAdvertisedMTU (mtu : Nat) : Nat := mtu + 60

/-- The classless-static-route DHCP option advertising the configured VTEP
CIDR via the gateway. -/
def classlessRouteOpt (vtepCIDR : IPNet) (gw : Nat) : String :=
  "--dhcp-option=option:classless-static-route," ++ (cidrToString vtepCIDR ++ ("," ++ ipToString gw))

/-- Modelled from the spec: the fixed dnsmasq argument list of §4.2, as
asserted verbatim by the test suite; the classless-static-route option is
appended exactly when the configured VTEP CIDR is wider than the VTEP IP's own
natural prefix. -/
def dnsmasqArgs (vtep : IPNet) (gw : Nat) (pf : IPNet) (vtepCIDR : IPNet) (mtu : Nat)
    (mac : String) : List String :=
  ["--keep-in-foreground",
   "--port=0",
   "--log-facility=-",
   "--interface=br-ovn",
   "--dhcp-option=option:router",
   "--dhcp-option=option:mtu," ++ toString (dhcpAdvertisedMTU mtu),
   "--dhcp-range=" ++ (ipToString (netAddr vtep) ++ ",static"),
   "--dhcp-host=" ++ (mac ++ ("," ++ ipToString pf.ip))] ++
  (if vtepCIDR.maskLen < vtep.maskLen then [classlessRouteOpt vtepCIDR gw] else [])

/-! ## Check-then-act helpers -/

/-- The key a route-existence query matches on (destination, next hop, device,
table — the metric is not part of the query). -/
def routeKey (r : Route) : IPNet × Nat × String × Option Nat := (r.dst, r.via, r.dev, r.table)

/-- A route with the given key is present. -/
def hasRoute (rs : List Route) (dst : IPNet) (via : Nat) (dev : String)
    (table : Option Nat) : Prop :=
  (dst, via, dev, table) ∈ rs.map routeKey

instance (rs : List Route) (dst : IPNet) (via : Nat) (dev : String) (table : Option Nat) :
    Decidable (hasRoute rs dst via dev table) :=
  inferInstanceAs (Decidable ((dst, via, dev, table) ∈ rs.map routeKey))

/-- A rule with the given source, table and priority is present. -/
def hasRule (rl : List Rule) (src : IPNet) (table : Nat) (priority : Nat) : Prop :=
  (⟨src, table, priority⟩ : Rule) ∈ rl

instance (rl : List Rule) (src : IPNet) (table : Nat) (priority : Nat) :
    Decidable (hasRule rl src table priority) :=
  inferInstanceAs (Decidable (_ ∈ rl))

/-- Route convergence: query existence first, add only if absent. -/
def ensureRoute (dst : IPNet) (via : Nat) (dev : String) (metric table : Option Nat)
    (rs : List Route) : List Route × List Call :=
  if hasRoute rs dst via dev table then (rs, [])
  else (⟨dst, via, dev, metric, table⟩ :: rs, [Call.addRoute dst via dev metric table])

/-- Rule convergence: query existence first, add only if absent. -/
def ensureRule (src : IPNet) (table : Nat) (priority : Nat) (rl : List Rule) :
    List Rule × List Call :=
  if hasRule rl src table priority then (rl, [])
  else (⟨src, table, priority⟩ :: rl, [Call.addRule src table priority])

/-- Address convergence on the overlay bridge: query existence first, set only
if absent. -/
def ensureBrOvnAddr (addr : IPNet) (addrs : List IPNet) : List IPNet × List Call :=
  if addr ∈ addrs then (addrs, [])
  else (addr :: addrs, [Call.setLinkIPAddress brOvn addr])

/-- Idempotent file write (overwrite or create). -/
def setFile (fs : List (String × String)) (path content : String) : List (String × String) :=
  (path, content) :: fs.filter fun e => e.1 ≠ path

/-- Content of a file, if present. -/
def fileContent (fs : List (String × String)) (path : String) : Option String :=
  (fs.find? fun e => e.1 == path).map (·.2)

/-! ## The convergence pass -/

/-- Modelled from the spec: the cooldown of the disruptive netplan apply.  The
exact legacy value is an open question of the spec (on the order of one to two
minutes); the cooldown test (passes stepped 60 s apart, applies on the first
and third of four passes) constrains it to 60 < cooldown ≤ 120 seconds. -/
def netplanApplyCooldown : Nat := 120

/-- The throttle gate: apply if never applied before, or if at least the
cooldown has elapsed since the last apply; record the apply time. -/
def throttleStep (ps : ProvState) (now : Nat) : ProvState × Bool :=
  match ps.lastApply with
  | none => (⟨some now⟩, true)
  | some t => if netplanApplyCooldown ≤ now - t then (⟨some now⟩, true) else (ps, false)

/-- Result of a mode dispatch that computed the OVS encapsulation IP. -/
structure DispatchOut where
  encap : Nat
  world : World
  calls : List Call

/-- Modelled from the spec: Internal-mode addressing (§4.2).  Ensure the VTEP
address on the overlay bridge (check-then-set), bring the link up
unconditionally, ensure the VTEP-CIDR route (only needed when the configured
CIDR is wider than the VTEP's natural network, as the same-subnet test pins)
and the host-CIDR route at metric 10000 (check-then-add), ensure one live DHCP
responder (liveness check before spawn), and render the gateway stanza
unconditionally from the VTEP IP's own natural network. -/
def internalDispatch (vtep : IPNet) (gw : Nat) (pf : IPNet) (cfg : Config) (w : World) :
    DispatchOut :=
  let a := ensureBrOvnAddr vtep w.brOvnAddrs
  let r1 :=
    if cfg.vtepCIDR.maskLen < vtep.maskLen then
      ensureRoute cfg.vtepCIDR gw brOvn none none w.routes
    else (w.routes, [])
  let r2 := ensureRoute cfg.hostCIDR gw brOvn (some 10000) none r1.1
  let spawn : List Call :=
    if w.dnsmasqAlive then []
    else [Call.spawnDHCP (dnsmasqArgs vtep gw pf cfg.vtepCIDR cfg.mtu w.pfMAC)]
  let stanza := gatewayStanza gw (naturalNetwork vtep)
  let w' := { w with brOvnAddrs := a.1, routes := r2.1, dnsmasqAlive := true,
                     files := setFile w.files ovnConfPath stanza }
  { encap := vtep.ip
    world := w'
    calls := a.2 ++ [Call.setLinkUp brOvn] ++ r1.2 ++ r2.2 ++ spawn ++
             [Call.writeFile ovnConfPath stanza] }

/-- Result of the External-mode dispatch. -/
structure ExtOut where
  res : Except PErr Nat
  ps : ProvState
  world : World
  calls : List Call

/-- Modelled from the spec: External-mode addressing (§4.3).  Render the
netplan bridge definition (idempotent overwrite), run the throttled apply
independent of the address state, then require exactly one address on the
overlay bridge (zero or several is an error for this pass); on exactly one,
ensure the host-CIDR route via the discovered gateway at metric 10000 and
render the gateway stanza from the observed bridge subnet. -/
def externalDispatch (cfg : Config) (ps : ProvState) (w : World) : ExtOut :=
  let fs1 := setFile w.files netplanPath netplanFileContent
  let ta := throttleStep ps w.now
  let cs1 := [Call.writeFile netplanPath netplanFileContent] ++
             (if ta.2 then [Call.netplanApply] else [])
  match w.brOvnAddrs with
  | [addr] =>
    let gw := w.discoveredGw
    let r1 := ensureRoute cfg.hostCIDR gw brOvn (some 10000) none w.routes
    let stanza := gatewayStanza gw (naturalNetwork addr)
    { res := .ok addr.ip, ps := ta.1,
      world := { w with files := setFile fs1 ovnConfPath stanza, routes := r1.1 },
      calls := cs1 ++ r1.2 ++ [Call.writeFile ovnConfPath stanza] }
  | [] => { res := .error .noBrOvnAddress, ps := ta.1,
            world := { w with files := fs1 }, calls := cs1 }
  | _ => { res := .error .multipleBrOvnAddresses, ps := ta.1,
           world := { w with files := fs1 }, calls := cs1 }

/-- Result of the shared policy-routing convergence. -/
structure StepOut where
  res : Except PErr Unit
  world : World
  calls : List Call

/-- Modelled from the spec: shared policy-routing convergence (§4.4).  For the
pod-network interface and the out-of-band interface require exactly one
address each; ensure a source rule to table 60 (priorities 31000 and 32000,
matching the containing network resp. the /32 host address); ensure the
VTEP-CIDR route via the default gateway out the out-of-band interface in
table 60 (check-then-add). -/
def sharedRouting (cfg : Config) (w : World) : StepOut :=
  match w.cni0Addrs with
  | [a] =>
    let u1 := ensureRule (naturalNetwork a) 60 31000 w.rules
    match w.brCommChAddrs with
    | [b] =>
      let u2 := ensureRule ⟨b.ip, 32⟩ 60 32000 u1.1
      let r1 := ensureRoute cfg.vtepCIDR w.defaultGw brCommCh none (some 60) w.routes
      { res := .ok (), world := { w with rules := u2.1, routes := r1.1 },
        calls := u1.2 ++ u2.2 ++ r1.2 }
    | _ => { res := .error (.wrongAddressCount brCommCh),
             world := { w with rules := u1.1 }, calls := u1.2 }
  | _ => { res := .error (.wrongAddressCount cni0), world := w, calls := [] }

/-- Result of one convergence pass. -/
structure PassResult where
  res : Except PErr Unit
  ps : ProvState
  world : World
  calls : List Call

/-- Modelled from the spec: one convergence pass of the missing provisioner
(§4.1 `RunOnce`).  Node bookkeeping first (failure aborts the pass), then the
OVS host-node-name and hostname setters (the External idempotency test pins
that these run even on a pass whose mode dispatch errors), then the mode
dispatch, then shared routing convergence, and finally — only on success — the
OVS encapsulation-IP setter with the mode-computed source. -/
def RunOnce (cfg : Config) (ps : ProvState) (w : World) : PassResult :=
  if w.nodePatchOK then
    let cs0 := [Call.patchNode cfg.nodeName, Call.setKubernetesHostNodeName w.hostNodeName,
                Call.setHostName w.hostNodeName]
    match cfg.mode with
    | .internalIPAM vtep gw pf =>
      let d := internalDispatch vtep gw pf cfg w
      let s := sharedRouting cfg d.world
      match s.res with
      | .ok _ => ⟨.ok (), ps, s.world, cs0 ++ d.calls ++ s.calls ++ [Call.setOVNEncapIP d.encap]⟩
      | .error e => ⟨.error e, ps, s.world, cs0 ++ d.calls ++ s.calls⟩
    | .externalIPAM _ =>
      let d := externalDispatch cfg ps w
      match d.res with
      | .ok encap =>
        let s := sharedRouting cfg d.world
        match s.res with
        | .ok _ => ⟨.ok (), d.ps, s.world, cs0 ++ d.calls ++ s.calls ++ [Call.setOVNEncapIP encap]⟩
        | .error e => ⟨.error e, d.ps, s.world, cs0 ++ d.calls ++ s.calls⟩
      | .error e => ⟨.error e, d.ps, d.world, cs0 ++ d.calls⟩
  else ⟨.error .nodePatchFailed, ps, w, []⟩

/-- Run `n` consecutive passes, advancing the clock by `d` between passes, and
collect the concatenated call trace. -/
def runPasses (cfg : Config) (d : Nat) : Nat → ProvState → World → ProvState × World × List Call
  | 0, ps, w => (ps, w, [])
  | n + 1, ps, w =>
    let p := RunOnce cfg ps w
    let rest := runPasses cfg d n p.ps { p.world with now := p.world.now + d }
    (rest.1, rest.2.1, p.calls ++ rest.2.2)

/-! ## Basic lemmas about the check-then-act helpers -/

theorem hasRoute_cons (r : Route) (rs : List Route) (dst : IPNet) (via : Nat) (dev : String)
    (table : Option Nat) (h : hasRoute rs dst via dev table) :
    hasRoute (r :: rs) dst via dev table := by
  simp only [hasRoute, List.map_cons, List.mem_cons]
  exact Or.inr h

theorem hasRoute_ensureRoute_self (dst : IPNet) (via : Nat) (dev : String)
    (metric table : Option Nat) (rs : List Route) :
    hasRoute (ensureRoute dst via dev metric table rs).1 dst via dev table := by
  unfold ensureRoute
  split
  · assumption
  · simp [hasRoute, routeKey]

theorem hasRoute_ensureRoute_mono (dst : IPNet) (via : Nat) (dev : String)
    (metric table : Option Nat) (rs : List Route) (d : IPNet) (v : Nat) (dv : String)
    (t : Option Nat) (h : hasRoute rs d v dv t) :
    hasRoute (ensureRoute dst via dev metric table rs).1 d v dv t := by
  unfold ensureRoute
  split
  · exact h
  · exact hasRoute_cons _ _ _ _ _ _ h

theorem ensureRoute_of_hasRoute (dst : IPNet) (via : Nat) (dev : String)
    (metric table : Option Nat) (rs : List Route) (h : hasRoute rs dst via dev table) :
    ensureRoute dst via dev metric table rs = (rs, []) := by
  unfold ensureRoute
  simp [h]

theorem hasRule_cons (r : Rule) (rl : List Rule) (src : IPNet) (table priority : Nat)
    (h : hasRule rl src table priority) : hasRule (r :: rl) src table priority := by
  simp only [hasRule, List.mem_cons]
  exact Or.inr h

theorem hasRule_ensureRule_self (src : IPNet) (table priority : Nat) (rl : List Rule) :
    hasRule (ensureRule src table priority rl).1 src table priority := by
  unfold ensureRule
  split
  · assumption
  · simp [hasRule]

theorem hasRule_ensureRule_mono (src : IPNet) (table priority : Nat) (rl : List Rule)
    (s2 : IPNet) (t2 p2 : Nat) (h : hasRule rl s2 t2 p2) :
    hasRule (ensureRule src table priority rl).1 s2 t2 p2 := by
  unfold ensureRule
  split
  · exact h
  · exact hasRule_cons _ _ _ _ _ h

theorem ensureRule_of_hasRule (src : IPNet) (table priority : Nat) (rl : List Rule)
    (h : hasRule rl src table priority) : ensureRule src table priority rl = (rl, []) := by
  unfold ensureRule
  simp [h]

theorem mem_ensureBrOvnAddr_self (addr : IPNet) (addrs : List IPNet) :
    addr ∈ (ensureBrOvnAddr addr addrs).1 := by
  unfold ensureBrOvnAddr
  split
  · assumption
  · exact List.mem_cons_self _ _

theorem ensureBrOvnAddr_of_mem (addr : IPNet) (addrs : List IPNet) (h : addr ∈ addrs) :
    ensureBrOvnAddr addr addrs = (addrs, []) := by
  unfold ensureBrOvnAddr
  simp [h]

/-! ## Dispatch-level lemmas -/

theorem internalDispatch_frame (vtep : IPNet) (gw : Nat) (pf : IPNet) (cfg : Config)
    (w : World) :
    (internalDispatch vtep gw pf cfg w).world.cni0Addrs = w.cni0Addrs ∧
    (internalDispatch vtep gw pf cfg w).world.brCommChAddrs = w.brCommChAddrs ∧
    (internalDispatch vtep gw pf cfg w).world.rules = w.rules ∧
    (internalDispatch vtep gw pf cfg w).world.dnsmasqAlive = true ∧
    (internalDispatch vtep gw pf cfg w).world.nodePatchOK = w.nodePatchOK ∧
    (internalDispatch vtep gw pf cfg w).world.now = w.now ∧
    (internalDispatch vtep gw pf cfg w).world.defaultGw = w.defaultGw ∧
    (internalDispatch vtep gw pf cfg w).world.discoveredGw = w.discoveredGw ∧
    (internalDispatch vtep gw pf cfg w).world.pfMAC = w.pfMAC ∧
    (internalDispatch vtep gw pf cfg w).world.hostNodeName = w.hostNodeName :=
  ⟨rfl, rfl, rfl, rfl, rfl, rfl, rfl, rfl, rfl, rfl⟩

theorem internalDispatch_spec (vtep : IPNet) (gw : Nat) (pf : IPNet) (cfg : Config)
    (w : World) :
    (internalDispatch vtep gw pf cfg w).encap = vtep.ip ∧
    vtep ∈ (internalDispatch vtep gw pf cfg w).world.brOvnAddrs ∧
    (cfg.vtepCIDR.maskLen < vtep.maskLen →
      hasRoute (internalDispatch vtep gw pf cfg w).world.routes cfg.vtepCIDR gw brOvn none) ∧
    hasRoute (internalDispatch vtep gw pf cfg w).world.routes cfg.hostCIDR gw brOvn none ∧
    (∀ d v dv t, hasRoute w.routes d v dv t →
      hasRoute (internalDispatch vtep gw pf cfg w).world.routes d v dv t) := by
  refine ⟨rfl, mem_ensureBrOvnAddr_self _ _, ?_, ?_, ?_⟩
  · intro hc
    show hasRoute (ensureRoute cfg.hostCIDR gw brOvn (some 10000) none
      (if cfg.vtepCIDR.maskLen < vtep.maskLen then
        ensureRoute cfg.vtepCIDR gw brOvn none none w.routes
       else (w.routes, [])).1).1 cfg.vtepCIDR gw brOvn none
    rw [if_pos hc]
    exact hasRoute_ensureRoute_mono _ _ _ _ _ _ _ _ _ _ (hasRoute_ensureRoute_self _ _ _ _ _ _)
  · exact hasRoute_ensureRoute_self _ _ _ _ _ _
  · intro d v dv t h
    show hasRoute (ensureRoute cfg.hostCIDR gw brOvn (some 10000) none
      (if cfg.vtepCIDR.maskLen < vtep.maskLen then
        ensureRoute cfg.vtepCIDR gw brOvn none none w.routes
       else (w.routes, [])).1).1 d v dv t
    split
    · exact hasRoute_ensureRoute_mono _ _ _ _ _ _ _ _ _ _
        (hasRoute_ensureRoute_mono _ _ _ _ _ _ _ _ _ _ h)
    · exact hasRoute_ensureRoute_mono _ _ _ _ _ _ _ _ _ _ h

theorem internalDispatch_calls_noop (vtep : IPNet) (gw : Nat) (pf : IPNet) (cfg : Config)
    (w : World) (ha : vtep ∈ w.brOvnAddrs)
    (hr1 : cfg.vtepCIDR.maskLen < vtep.maskLen →
      hasRoute w.routes cfg.vtepCIDR gw brOvn none)
    (hr2 : hasRoute w.routes cfg.hostCIDR gw brOvn none)
    (hd : w.dnsmasqAlive = true) :
    (internalDispatch vtep gw pf cfg w).calls =
      [Call.setLinkUp brOvn,
       Call.writeFile ovnConfPath (gatewayStanza gw (naturalNetwork vtep))] := by
  unfold internalDispatch
  rw [ensureBrOvnAddr_of_mem _ _ ha, hd]
  by_cases hc : cfg.vtepCIDR.maskLen < vtep.maskLen
  · rw [if_pos hc]
    simp [ensureRoute_of_hasRoute cfg.vtepCIDR gw brOvn none none w.routes (hr1 hc),
      ensureRoute_of_hasRoute cfg.hostCIDR gw brOvn (some 10000) none w.routes hr2]
  · rw [if_neg hc]
    simp [ensureRoute_of_hasRoute cfg.hostCIDR gw brOvn (some 10000) none w.routes hr2]

theorem sharedRouting_frame (cfg : Config) (w : World) :
    (sharedRouting cfg w).world.brOvnAddrs = w.brOvnAddrs ∧
    (sharedRouting cfg w).world.cni0Addrs = w.cni0Addrs ∧
    (sharedRouting cfg w).world.brCommChAddrs = w.brCommChAddrs ∧
    (sharedRouting cfg w).world.dnsmasqAlive = w.dnsmasqAlive ∧
    (sharedRouting cfg w).world.files = w.files ∧
    (sharedRouting cfg w).world.nodePatchOK = w.nodePatchOK ∧
    (sharedRouting cfg w).world.now = w.now ∧
    (sharedRouting cfg w).world.defaultGw = w.defaultGw ∧
    (sharedRouting cfg w).world.discoveredGw = w.discoveredGw ∧
    (sharedRouting cfg w).world.pfMAC = w.pfMAC ∧
    (sharedRouting cfg w).world.hostNodeName = w.hostNodeName := by
  unfold sharedRouting
  split
  · split
    · exact ⟨rfl, rfl, rfl, rfl, rfl, rfl, rfl, rfl, rfl, rfl, rfl⟩
    · exact ⟨rfl, rfl, rfl, rfl, rfl, rfl, rfl, rfl, rfl, rfl, rfl⟩
  · exact ⟨rfl, rfl, rfl, rfl, rfl, rfl, rfl, rfl, rfl, rfl, rfl⟩

theorem sharedRouting_spec (cfg : Config) (w : World) (a b : IPNet)
    (ha : w.cni0Addrs = [a]) (hb : w.brCommChAddrs = [b]) :
    (sharedRouting cfg w).res = .ok () ∧
    hasRule (sharedRouting cfg w).world.rules (naturalNetwork a) 60 31000 ∧
    hasRule (sharedRouting cfg w).world.rules ⟨b.ip, 32⟩ 60 32000 ∧
    hasRoute (sharedRouting cfg w).world.routes cfg.vtepCIDR w.defaultGw brCommCh (some 60) ∧
    (∀ d v dv t, hasRoute w.routes d v dv t →
      hasRoute (sharedRouting cfg w).world.routes d v dv t) := by
  unfold sharedRouting
  rw [ha, hb]
  refine ⟨rfl, ?_, ?_, ?_, ?_⟩
  · exact hasRule_ensureRule_mono _ _ _ _ _ _ _ (hasRule_ensureRule_self _ _ _ _)
  · exact hasRule_ensureRule_self _ _ _ _
  · exact hasRoute_ensureRoute_self _ _ _ _ _ _
  · intro d v dv t h
    exact hasRoute_ensureRoute_mono _ _ _ _ _ _ _ _ _ _ h

theorem sharedRouting_noop (cfg : Config) (w : World) (a b : IPNet)
    (ha : w.cni0Addrs = [a]) (hb : w.brCommChAddrs = [b])
    (h1 : hasRule w.rules (naturalNetwork a) 60 31000)
    (h2 : hasRule w.rules ⟨b.ip, 32⟩ 60 32000)
    (h3 : hasRoute w.routes cfg.vtepCIDR w.defaultGw brCommCh (some 60)) :
    (sharedRouting cfg w).res = .ok () ∧ (sharedRouting cfg w).calls = [] := by
  unfold sharedRouting
  rw [ha, hb]
  simp [ensureRule_of_hasRule (naturalNetwork a) 60 31000 w.rules h1,
    ensureRule_of_hasRule ⟨b.ip, 32⟩ 60 32000 w.rules h2,
    ensureRoute_of_hasRoute cfg.vtepCIDR w.defaultGw brCommCh none (some 60) w.routes h3]

theorem externalDispatch_frame (cfg : Config) (ps : ProvState) (w : World) :
    (externalDispatch cfg ps w).world.brOvnAddrs = w.brOvnAddrs ∧
    (externalDispatch cfg ps w).world.cni0Addrs = w.cni0Addrs ∧
    (externalDispatch cfg ps w).world.brCommChAddrs = w.brCommChAddrs ∧
    (externalDispatch cfg ps w).world.rules = w.rules ∧
    (externalDispatch cfg ps w).world.dnsmasqAlive = w.dnsmasqAlive ∧
    (externalDispatch cfg ps w).world.nodePatchOK = w.nodePatchOK ∧
    (externalDispatch cfg ps w).world.now = w.now ∧
    (externalDispatch cfg ps w).world.defaultGw = w.defaultGw ∧
    (externalDispatch cfg ps w).world.discoveredGw = w.discoveredGw ∧
    (externalDispatch cfg ps w).world.hostNodeName = w.hostNodeName := by
  unfold externalDispatch
  split
  · exact ⟨rfl, rfl, rfl, rfl, rfl, rfl, rfl, rfl, rfl, rfl⟩
  · exact ⟨rfl, rfl, rfl, rfl, rfl, rfl, rfl, rfl, rfl, rfl⟩
  · exact ⟨rfl, rfl, rfl, rfl, rfl, rfl, rfl, rfl, rfl, rfl⟩

theorem externalDispatch_spec (cfg : Config) (ps : ProvState) (w : World) (x : IPNet)
    (hx : w.brOvnAddrs = [x]) :
    (externalDispatch cfg ps w).res = .ok x.ip ∧
    hasRoute (externalDispatch cfg ps w).world.routes cfg.hostCIDR w.discoveredGw brOvn none ∧
    (∀ d v dv t, hasRoute w.routes d v dv t →
      hasRoute (externalDispatch cfg ps w).world.routes d v dv t) := by
  unfold externalDispatch
  rw [hx]
  exact ⟨rfl, hasRoute_ensureRoute_self _ _ _ _ _ _,
    fun d v dv t h => hasRoute_ensureRoute_mono _ _ _ _ _ _ _ _ _ _ h⟩

theorem externalDispatch_calls_noop (cfg : Config) (ps : ProvState) (w : World) (x : IPNet)
    (hx : w.brOvnAddrs = [x])
    (hr : hasRoute w.routes cfg.hostCIDR w.discoveredGw brOvn none) :
    noMutAdds (externalDispatch cfg ps w).calls = true := by
  unfold externalDispatch
  rw [hx]
  simp [ensureRoute_of_hasRoute cfg.hostCIDR w.discoveredGw brOvn (some 10000) none w.routes hr,
    noMutAdds, Call.isMutAdd]

/-! ## Convergence predicates and pass-level lemmas -/

/-- The Internal-mode desired state: VTEP address present on the overlay
bridge, the two routes present (the VTEP-CIDR route when the configured CIDR
is wider than the natural network), DHCP responder alive. -/
def internalConverged (vtep : IPNet) (gw : Nat) (cfg : Config) (w : World) : Prop :=
  vtep ∈ w.brOvnAddrs ∧
  (cfg.vtepCIDR.maskLen < vtep.maskLen → hasRoute w.routes cfg.vtepCIDR gw brOvn none) ∧
  hasRoute w.routes cfg.hostCIDR gw brOvn none ∧
  w.dnsmasqAlive = true

/-- The shared policy-routing desired state for the observed pod-network
address `a` and out-of-band address `b`. -/
def sharedConverged (cfg : Config) (w : World) (a b : IPNet) : Prop :=
  hasRule w.rules (naturalNetwork a) 60 31000 ∧
  hasRule w.rules ⟨b.ip, 32⟩ 60 32000 ∧
  hasRoute w.routes cfg.vtepCIDR w.defaultGw brCommCh (some 60)

/-- The External-mode desired state: the host-CIDR route via the discovered
gateway present on the overlay bridge. -/
def externalConverged (cfg : Config) (w : World) : Prop :=
  hasRoute w.routes cfg.hostCIDR w.discoveredGw brOvn none

theorem runOnce_internal_ok (cfg : Config) (vtep : IPNet) (gw : Nat) (pf : IPNet)
    (ps : ProvState) (w : World) (a b : IPNet)
    (hm : cfg.mode = .internalIPAM vtep gw pf) (hp : w.nodePatchOK = true)
    (ha : w.cni0Addrs = [a]) (hb : w.brCommChAddrs = [b]) :
    (RunOnce cfg ps w).res = .ok () ∧
    internalConverged vtep gw cfg (RunOnce cfg ps w).world ∧
    sharedConverged cfg (RunOnce cfg ps w).world a b ∧
    (RunOnce cfg ps w).world.nodePatchOK = true ∧
    (RunOnce cfg ps w).world.cni0Addrs = [a] ∧
    (RunOnce cfg ps w).world.brCommChAddrs = [b] := by
  have hdf := internalDispatch_frame vtep gw pf cfg w
  have hds := internalDispatch_spec vtep gw pf cfg w
  have ha2 : (internalDispatch vtep gw pf cfg w).world.cni0Addrs = [a] :=
    hdf.1.trans ha
  have hb2 : (internalDispatch vtep gw pf cfg w).world.brCommChAddrs = [b] :=
    hdf.2.1.trans hb
  have hss := sharedRouting_spec cfg (internalDispatch vtep gw pf cfg w).world a b ha2 hb2
  have hsf := sharedRouting_frame cfg (internalDispatch vtep gw pf cfg w).world
  have hworld : (RunOnce cfg ps w).world =
      (sharedRouting cfg (internalDispatch vtep gw pf cfg w).world).world := by
    unfold RunOnce
    rw [hp, if_pos rfl, hm]
    dsimp only
    rw [hss.1]
  have hres : (RunOnce cfg ps w).res = .ok () := by
    unfold RunOnce
    rw [hp, if_pos rfl, hm]
    dsimp only
    rw [hss.1]
  rw [hworld]
  refine ⟨hres, ⟨?_, ?_, ?_, ?_⟩, ⟨?_, ?_, ?_⟩, ?_, ?_, ?_⟩
  · rw [hsf.1]
    exact hds.2.1
  · intro hc
    exact hss.2.2.2.2 _ _ _ _ (hds.2.2.1 hc)
  · exact hss.2.2.2.2 _ _ _ _ hds.2.2.2.1
  · rw [hsf.2.2.2.1]
    exact hdf.2.2.2.1
  · exact hss.2.1
  · exact hss.2.2.1
  · have h60 := hss.2.2.2.1
    rw [hsf.2.2.2.2.2.2.2.1, hdf.2.2.2.2.2.2.1]
    rwa [hdf.2.2.2.2.2.2.1] at h60
  · rw [hsf.2.2.2.2.2.1, hdf.2.2.2.2.1]
    exact hp
  · rw [hsf.2.1]
    exact ha2
  · rw [hsf.2.2.1]
    exact hb2

theorem runOnce_internal_noop (cfg : Config) (vtep : IPNet) (gw : Nat) (pf : IPNet)
    (ps : ProvState) (w : World) (a b : IPNet)
    (hm : cfg.mode = .internalIPAM vtep gw pf) (hp : w.nodePatchOK = true)
    (ha : w.cni0Addrs = [a]) (hb : w.brCommChAddrs = [b])
    (hic : internalConverged vtep gw cfg w) (hsc : sharedConverged cfg w a b) :
    (RunOnce cfg ps w).res = .ok () ∧ noMutAdds (RunOnce cfg ps w).calls = true := by
  have hdf := internalDispatch_frame vtep gw pf cfg w
  have hds := internalDispatch_spec vtep gw pf cfg w
  have hcalls := internalDispatch_calls_noop vtep gw pf cfg w hic.1 hic.2.1 hic.2.2.1 hic.2.2.2
  have ha2 : (internalDispatch vtep gw pf cfg w).world.cni0Addrs = [a] :=
    hdf.1.trans ha
  have hb2 : (internalDispatch vtep gw pf cfg w).world.brCommChAddrs = [b] :=
    hdf.2.1.trans hb
  have h1 : hasRule (internalDispatch vtep gw pf cfg w).world.rules (naturalNetwork a)
      60 31000 := by
    rw [hdf.2.2.1]
    exact hsc.1
  have h2 : hasRule (internalDispatch vtep gw pf cfg w).world.rules ⟨b.ip, 32⟩ 60 32000 := by
    rw [hdf.2.2.1]
    exact hsc.2.1
  have h3 : hasRoute (internalDispatch vtep gw pf cfg w).world.routes cfg.vtepCIDR
      (internalDispatch vtep gw pf cfg w).world.defaultGw brCommCh (some 60) := by
    rw [hdf.2.2.2.2.2.2.1]
    exact hds.2.2.2.2 _ _ _ _ hsc.2.2
  have hsn := sharedRouting_noop cfg (internalDispatch vtep gw pf cfg w).world a b ha2 hb2
    h1 h2 h3
  constructor
  · unfold RunOnce
    rw [hp, if_pos rfl, hm]
    dsimp only
    rw [hsn.1]
  · have hcl : (RunOnce cfg ps w).calls =
        [Call.patchNode cfg.nodeName, Call.setKubernetesHostNodeName w.hostNodeName,
         Call.setHostName w.hostNodeName] ++
        (internalDispatch vtep gw pf cfg w).calls ++
        (sharedRouting cfg (internalDispatch vtep gw pf cfg w).world).calls ++
        [Call.setOVNEncapIP (internalDispatch vtep gw pf cfg w).encap] := by
      unfold RunOnce
      rw [hp, if_pos rfl, hm]
      dsimp only
      rw [hsn.1]
    rw [hcl, hcalls, hsn.2]
    simp [noMutAdds, Call.isMutAdd]

theorem noMutAdds_append (a b : List Call) :
    noMutAdds (a ++ b) = (noMutAdds a && noMutAdds b) :=
  List.all_append

theorem runOnce_external_ok (cfg : Config) (disc : IPNet) (ps : ProvState) (w : World)
    (x a b : IPNet)
    (hm : cfg.mode = .externalIPAM disc) (hp : w.nodePatchOK = true)
    (hx : w.brOvnAddrs = [x]) (ha : w.cni0Addrs = [a]) (hb : w.brCommChAddrs = [b]) :
    (RunOnce cfg ps w).res = .ok () ∧
    externalConverged cfg (RunOnce cfg ps w).world ∧
    sharedConverged cfg (RunOnce cfg ps w).world a b ∧
    (RunOnce cfg ps w).world.nodePatchOK = true ∧
    (RunOnce cfg ps w).world.brOvnAddrs = [x] ∧
    (RunOnce cfg ps w).world.cni0Addrs = [a] ∧
    (RunOnce cfg ps w).world.brCommChAddrs = [b] := by
  have hdf := externalDispatch_frame cfg ps w
  have hds := externalDispatch_spec cfg ps w x hx
  have ha2 : (externalDispatch cfg ps w).world.cni0Addrs = [a] := hdf.2.1.trans ha
  have hb2 : (externalDispatch cfg ps w).world.brCommChAddrs = [b] := hdf.2.2.1.trans hb
  have hss := sharedRouting_spec cfg (externalDispatch cfg ps w).world a b ha2 hb2
  have hsf := sharedRouting_frame cfg (externalDispatch cfg ps w).world
  have hworld : (RunOnce cfg ps w).world =
      (sharedRouting cfg (externalDispatch cfg ps w).world).world := by
    unfold RunOnce
    rw [hp, if_pos rfl, hm]
    dsimp only
    rw [hds.1]
    dsimp only
    rw [hss.1]
  have hres : (RunOnce cfg ps w).res = .ok () := by
    unfold RunOnce
    rw [hp, if_pos rfl, hm]
    dsimp only
    rw [hds.1]
    dsimp only
    rw [hss.1]
  rw [hworld]
  refine ⟨hres, ?_, ⟨?_, ?_, ?_⟩, ?_, ?_, ?_, ?_⟩
  · show hasRoute _ cfg.hostCIDR _ brOvn none
    rw [hsf.2.2.2.2.2.2.2.2.1, hdf.2.2.2.2.2.2.2.2.1]
    exact hss.2.2.2.2 _ _ _ _ hds.2.1
  · exact hss.2.1
  · exact hss.2.2.1
  · show hasRoute _ cfg.vtepCIDR _ brCommCh (some 60)
    rw [hsf.2.2.2.2.2.2.2.1]
    exact hss.2.2.2.1
  · rw [hsf.2.2.2.2.2.1, hdf.2.2.2.2.2.1]
    exact hp
  · rw [hsf.1, hdf.1]
    exact hx
  · rw [hsf.2.1]
    exact ha2
  · rw [hsf.2.2.1]
    exact hb2

theorem runOnce_external_noop (cfg : Config) (disc : IPNet) (ps : ProvState) (w : World)
    (x a b : IPNet)
    (hm : cfg.mode = .externalIPAM disc) (hp : w.nodePatchOK = true)
    (hx : w.brOvnAddrs = [x]) (ha : w.cni0Addrs = [a]) (hb : w.brCommChAddrs = [b])
    (hec : externalConverged cfg w) (hsc : sharedConverged cfg w a b) :
    (RunOnce cfg ps w).res = .ok () ∧ noMutAdds (RunOnce cfg ps w).calls = true := by
  have hdf := externalDispatch_frame cfg ps w
  have hds := externalDispatch_spec cfg ps w x hx
  have hcalls := externalDispatch_calls_noop cfg ps w x hx hec
  have ha2 : (externalDispatch cfg ps w).world.cni0Addrs = [a] := hdf.2.1.trans ha
  have hb2 : (externalDispatch cfg ps w).world.brCommChAddrs = [b] := hdf.2.2.1.trans hb
  have h1 : hasRule (externalDispatch cfg ps w).world.rules (naturalNetwork a) 60 31000 := by
    rw [hdf.2.2.2.1]
    exact hsc.1
  have h2 : hasRule (externalDispatch cfg ps w).world.rules ⟨b.ip, 32⟩ 60 32000 := by
    rw [hdf.2.2.2.1]
    exact hsc.2.1
  have h3 : hasRoute (externalDispatch cfg ps w).world.routes cfg.vtepCIDR
      (externalDispatch cfg ps w).world.defaultGw brCommCh (some 60) := by
    rw [hdf.2.2.2.2.2.2.2.1]
    exact hds.2.2 _ _ _ _ hsc.2.2
  have hsn := sharedRouting_noop cfg (externalDispatch cfg ps w).world a b ha2 hb2 h1 h2 h3
  constructor
  · unfold RunOnce
    rw [hp, if_pos rfl, hm]
    dsimp only
    rw [hds.1]
    dsimp only
    rw [hsn.1]
  · have hcl : (RunOnce cfg ps w).calls =
        [Call.patchNode cfg.nodeName, Call.setKubernetesHostNodeName w.hostNodeName,
         Call.setHostName w.hostNodeName] ++
        (externalDispatch cfg ps w).calls ++
        (sharedRouting cfg (externalDispatch cfg ps w).world).calls ++
        [Call.setOVNEncapIP x.ip] := by
      unfold RunOnce
      rw [hp, if_pos rfl, hm]
      dsimp only
      rw [hds.1]
      dsimp only
      rw [hsn.1]
    have hA : noMutAdds [Call.patchNode cfg.nodeName,
        Call.setKubernetesHostNodeName w.hostNodeName, Call.setHostName w.hostNodeName] = true := by
      simp [noMutAdds, Call.isMutAdd]
    have hB : noMutAdds [Call.setOVNEncapIP x.ip] = true := by
      simp [noMutAdds, Call.isMutAdd]
    rw [hcl, hsn.2, List.append_nil, noMutAdds_append, noMutAdds_append, hA, hB, hcalls]
    rfl

/-! ## Concrete fixtures (the configurations and worlds of the test suite) -/

/-- VTEP IP 192.168.1.1/24 of the Internal-mode scenario. -/
def vtepX : IPNet := ⟨mkIP 192 168 1 1, 24⟩

/-- Gateway 192.168.1.10 of the Internal-mode scenario. -/
def gwX : Nat := mkIP 192 168 1 10

/-- Physical-function IP 192.168.1.2/24 of the Internal-mode scenario. -/
def pfX : IPNet := ⟨mkIP 192 168 1 2, 24⟩

/-- The Internal-mode configuration of the end-to-end scenario: VTEP
192.168.1.1/24, gateway 192.168.1.10, VTEP CIDR 192.168.1.0/23, host CIDR
10.0.100.1/24, MTU 8940. -/
def cfgInternalX : Config :=
  ⟨.internalIPAM vtepX gwX pfX, ⟨mkIP 192 168 1 0, 23⟩, ⟨mkIP 10 0 100 1, 24⟩, "dpu1", 8940⟩

/-- A fresh world as mocked by the first-run tests: nothing converged yet, one
address on each of the pod-network and out-of-band interfaces. -/
def worldX : World :=
  { brOvnAddrs := [], routes := [], rules := [],
    cni0Addrs := [⟨mkIP 10 244 6 30, 24⟩], brCommChAddrs := [⟨mkIP 10 0 100 100, 24⟩],
    dnsmasqAlive := false, files := [], pfMAC := "00:00:00:00:00:01",
    defaultGw := mkIP 10 0 100 254, discoveredGw := mkIP 192 168 1 254, now := 0,
    nodePatchOK := true, hostNodeName := "host1" }

/-- The External-mode configuration of the test suite: gateway-discovery
network 169.254.99.100/32, VTEP CIDR 192.168.1.0/23, host CIDR 10.0.100.1/24,
MTU 0. -/
def cfgExternalX : Config :=
  ⟨.externalIPAM ⟨mkIP 169 254 99 100, 32⟩, ⟨mkIP 192 168 1 0, 23⟩,
   ⟨mkIP 10 0 100 1, 24⟩, "dpu1", 0⟩

/-- The External-mode world before external DHCP has assigned the bridge
address (the overlay bridge reports zero addresses). -/
def worldExtEmpty : World := { worldX with pfMAC := "" }

/-- The External-mode world after external DHCP assigned 192.168.0.3/23 to
the overlay bridge. -/
def worldExtOne : World := { worldExtEmpty with brOvnAddrs := [⟨mkIP 192 168 0 3, 23⟩] }

/-! ## Claim C1 -/

/-- Claim C1: for every valid configuration (either mode) and a world
satisfying the valid preconditions (node patch succeeds, exactly one address
on the pod-network and out-of-band interfaces, and — in External mode —
exactly one address on the overlay bridge), two consecutive convergence passes
with no external state change both succeed, and the second pass issues no
redundant mutating call: no address set, no route add, no rule add, no DHCP
responder spawn. -/
theorem c1_two_passes_idempotent (cfg : Config) (ps : ProvState) (w : World)
    (hp : w.nodePatchOK = true)
    (ha : ∃ a, w.cni0Addrs = [a]) (hb : ∃ b, w.brCommChAddrs = [b])
    (hx : ∀ disc, cfg.mode = IPAMMode.externalIPAM disc → ∃ x, w.brOvnAddrs = [x]) :
    (RunOnce cfg ps w).res = .ok () ∧
    (RunOnce cfg (RunOnce cfg ps w).ps (RunOnce cfg ps w).world).res = .ok () ∧
    noMutAdds (RunOnce cfg (RunOnce cfg ps w).ps (RunOnce cfg ps w).world).calls = true := by
  obtain ⟨a, ha⟩ := ha
  obtain ⟨b, hb⟩ := hb
  cases hm : cfg.mode with
  | internalIPAM vtep gw pf =>
    have h1 := runOnce_internal_ok cfg vtep gw pf ps w a b hm hp ha hb
    have h2 := runOnce_internal_noop cfg vtep gw pf (RunOnce cfg ps w).ps
      (RunOnce cfg ps w).world a b hm h1.2.2.2.1 h1.2.2.2.2.1 h1.2.2.2.2.2 h1.2.1 h1.2.2.1
    exact ⟨h1.1, h2.1, h2.2⟩
  | externalIPAM disc =>
    obtain ⟨x, hxx⟩ := hx disc hm
    have h1 := runOnce_external_ok cfg disc ps w x a b hm hp hxx ha hb
    have h2 := runOnce_external_noop cfg disc (RunOnce cfg ps w).ps
      (RunOnce cfg ps w).world x a b hm h1.2.2.2.1 h1.2.2.2.2.1 h1.2.2.2.2.2.1
      h1.2.2.2.2.2.2 h1.2.1 h1.2.2.1
    exact ⟨h1.1, h2.1, h2.2⟩

/-- Witness for claim C1, at the Internal-mode end-to-end configuration on a
fresh world. -/
theorem c1_two_passes_idempotent_witness :
    (RunOnce cfgInternalX ⟨none⟩ worldX).res = .ok () ∧
    (RunOnce cfgInternalX (RunOnce cfgInternalX ⟨none⟩ worldX).ps
      (RunOnce cfgInternalX ⟨none⟩ worldX).world).res = .ok () ∧
    noMutAdds (RunOnce cfgInternalX (RunOnce cfgInternalX ⟨none⟩ worldX).ps
      (RunOnce cfgInternalX ⟨none⟩ worldX).world).calls = true :=
  c1_two_passes_idempotent cfgInternalX ⟨none⟩ worldX rfl ⟨_, rfl⟩ ⟨_, rfl⟩
    (fun disc h => by simp [cfgInternalX] at h)

/-! ## Claim C2 -/

theorem fileContent_setFile (fs : List (String × String)) (p c : String) :
    fileContent (setFile fs p c) p = some c := by
  simp [fileContent, setFile]

theorem runOnce_internal_world (cfg : Config) (vtep : IPNet) (gw : Nat) (pf : IPNet)
    (ps : ProvState) (w : World)
    (hm : cfg.mode = .internalIPAM vtep gw pf) (hp : w.nodePatchOK = true) :
    (RunOnce cfg ps w).world =
      (sharedRouting cfg (internalDispatch vtep gw pf cfg w).world).world := by
  unfold RunOnce
  rw [hp, if_pos rfl, hm]
  dsimp only
  split <;> rfl

/-- Claim C2: in Internal mode every pass (whatever the rest of the world
looks like) renders the OVN gateway stanza as exactly the two-line file with
`next-hop` the configured gateway and `router-subnet` the network derived from
the VTEP IP's own prefix — never from the configured VTEP CIDR, which does not
occur in the rendered content at all. -/
theorem c2_router_subnet_is_natural_network (cfg : Config) (vtep : IPNet) (gw : Nat)
    (pf : IPNet) (ps : ProvState) (w : World)
    (hm : cfg.mode = .internalIPAM vtep gw pf) (hp : w.nodePatchOK = true) :
    fileContent (RunOnce cfg ps w).world.files ovnConfPath =
      some ("[Gateway]\nnext-hop=" ++ ipToString gw ++ "\nrouter-subnet=" ++
        cidrToString (naturalNetwork vtep) ++ "\n") := by
  rw [runOnce_internal_world cfg vtep gw pf ps w hm hp,
    (sharedRouting_frame _ _).2.2.2.2.1]
  have hfiles : (internalDispatch vtep gw pf cfg w).world.files =
      setFile w.files ovnConfPath (gatewayStanza gw (naturalNetwork vtep)) := rfl
  rw [hfiles, fileContent_setFile]
  rfl

/-- Witness for claim C2: with VTEP IP 192.168.1.1/24 and the wider configured
VTEP CIDR 192.168.1.0/23, the rendered router-subnet is 192.168.1.0/24, not
192.168.1.0/23. -/
theorem c2_router_subnet_is_natural_network_witness :
    fileContent (RunOnce cfgInternalX ⟨none⟩ worldX).world.files ovnConfPath =
      some "[Gateway]\nnext-hop=192.168.1.10\nrouter-subnet=192.168.1.0/24\n" ∧
    cidrToString cfgInternalX.vtepCIDR = "192.168.1.0/23" :=
  ⟨(c2_router_subnet_is_natural_network cfgInternalX vtepX gwX pfX ⟨none⟩ worldX rfl
      rfl).trans (by decide), by decide⟩

/-! ## Claim C8 -/

deriving instance DecidableEq for Except

/-- Claim C8: the Internal-mode end-to-end scenario (VTEP 192.168.1.1/24,
gateway 192.168.1.10, VTEP CIDR 192.168.1.0/23, MTU 8940) on a fresh world:
the first pass succeeds, issues the bridge address, brings the link up, adds
both routes, spawns the DHCP responder with the MTU option rounded to 9000
plus the classless-static-route option, and writes the two-line gateway stanza
referencing 192.168.1.0/24. -/
theorem c8_end_to_end_internal_scenario :
    (RunOnce cfgInternalX ⟨none⟩ worldX).res = .ok () ∧
    Call.setLinkIPAddress brOvn vtepX ∈ (RunOnce cfgInternalX ⟨none⟩ worldX).calls ∧
    Call.setLinkUp brOvn ∈ (RunOnce cfgInternalX ⟨none⟩ worldX).calls ∧
    Call.addRoute ⟨mkIP 192 168 1 0, 23⟩ gwX brOvn none none ∈
      (RunOnce cfgInternalX ⟨none⟩ worldX).calls ∧
    Call.addRoute ⟨mkIP 10 0 100 1, 24⟩ gwX brOvn (some 10000) none ∈
      (RunOnce cfgInternalX ⟨none⟩ worldX).calls ∧
    Call.spawnDHCP
      ["--keep-in-foreground", "--port=0", "--log-facility=-", "--interface=br-ovn",
       "--dhcp-option=option:router", "--dhcp-option=option:mtu,9000",
       "--dhcp-range=192.168.1.0,static", "--dhcp-host=00:00:00:00:00:01,192.168.1.2",
       "--dhcp-option=option:classless-static-route,192.168.1.0/23,192.168.1.10"] ∈
      (RunOnce cfgInternalX ⟨none⟩ worldX).calls ∧
    fileContent (RunOnce cfgInternalX ⟨none⟩ worldX).world.files ovnConfPath =
      some "[Gateway]\nnext-hop=192.168.1.10\nrouter-subnet=192.168.1.0/24\n" := by
  decide

/-! ## Claim C5 -/

theorem externalDispatch_res_empty (cfg : Config) (ps : ProvState) (w : World)
    (h : w.brOvnAddrs = []) :
    (externalDispatch cfg ps w).res = .error .noBrOvnAddress := by
  unfold externalDispatch
  rw [h]

theorem externalDispatch_res_multi (cfg : Config) (ps : ProvState) (w : World)
    (x y : IPNet) (rest : List IPNet) (h : w.brOvnAddrs = x :: y :: rest) :
    (externalDispatch cfg ps w).res = .error .multipleBrOvnAddresses := by
  unfold externalDispatch
  rw [h]

theorem runOnce_external_res_of_dispatch_err (cfg : Config) (disc : IPNet)
    (ps : ProvState) (w : World) (e : PErr)
    (hm : cfg.mode = .externalIPAM disc) (hp : w.nodePatchOK = true)
    (he : (externalDispatch cfg ps w).res = .error e) :
    (RunOnce cfg ps w).res = .error e := by
  unfold RunOnce
  rw [hp, if_pos rfl, hm]
  dsimp only
  rw [he]

theorem externalDispatch_applies_of_none (cfg : Config) (ps : ProvState) (w : World)
    (h : ps.lastApply = none) :
    Call.netplanApply ∈ (externalDispatch cfg ps w).calls := by
  unfold externalDispatch throttleStep
  rw [h]
  dsimp only
  rcases hba : w.brOvnAddrs with _ | ⟨x, _ | ⟨y, rest⟩⟩ <;> simp

theorem runOnce_external_calls_mem (cfg : Config) (disc : IPNet) (ps : ProvState)
    (w : World) (c : Call)
    (hm : cfg.mode = .externalIPAM disc) (hp : w.nodePatchOK = true)
    (hc : c ∈ (externalDispatch cfg ps w).calls) : c ∈ (RunOnce cfg ps w).calls := by
  unfold RunOnce
  rw [hp, if_pos rfl, hm]
  dsimp only
  split
  · split <;> simp [hc]
  · simp [hc]

/-- Claim C5: in External mode, a pass whose overlay bridge reports zero
addresses returns an error, and a pass whose overlay bridge reports more than
one address returns an error; the throttled apply step precedes the address
check, so on a fresh throttle the apply command is invoked even on such an
erroring pass. -/
theorem c5_external_exactly_one_address (cfg : Config) (disc : IPNet) (ps : ProvState)
    (w : World)
    (hm : cfg.mode = .externalIPAM disc) (hp : w.nodePatchOK = true) :
    (w.brOvnAddrs = [] → (RunOnce cfg ps w).res = .error .noBrOvnAddress) ∧
    (∀ x y rest, w.brOvnAddrs = x :: y :: rest →
      (RunOnce cfg ps w).res = .error .multipleBrOvnAddresses) ∧
    (ps.lastApply = none → Call.netplanApply ∈ (RunOnce cfg ps w).calls) := by
  refine ⟨?_, ?_, ?_⟩
  · intro h
    exact runOnce_external_res_of_dispatch_err cfg disc ps w _ hm hp
      (externalDispatch_res_empty cfg ps w h)
  · intro x y rest h
    exact runOnce_external_res_of_dispatch_err cfg disc ps w _ hm hp
      (externalDispatch_res_multi cfg ps w x y rest h)
  · intro h
    exact runOnce_external_calls_mem cfg disc ps w _ hm hp
      (externalDispatch_applies_of_none cfg ps w h)

/-- Witness for claim C5, at the External-mode configuration with an overlay
bridge that has not yet obtained an address. -/
theorem c5_external_exactly_one_address_witness :
    (RunOnce cfgExternalX ⟨none⟩ worldExtEmpty).res = .error .noBrOvnAddress ∧
    Call.netplanApply ∈ (RunOnce cfgExternalX ⟨none⟩ worldExtEmpty).calls :=
  ⟨(c5_external_exactly_one_address cfgExternalX ⟨mkIP 169 254 99 100, 32⟩ ⟨none⟩
      worldExtEmpty rfl rfl).1 rfl,
   (c5_external_exactly_one_address cfgExternalX ⟨mkIP 169 254 99 100, 32⟩ ⟨none⟩
      worldExtEmpty rfl rfl).2.2 rfl⟩

/-! ## Claim C7 -/

theorem internalDispatch_all_not_encap (vtep : IPNet) (gw : Nat) (pf : IPNet)
    (cfg : Config) (w : World) :
    ((internalDispatch vtep gw pf cfg w).calls.all fun c => !c.isEncap) = true := by
  unfold internalDispatch ensureBrOvnAddr ensureRoute
  dsimp only
  repeat' split
  all_goals simp [Call.isEncap]

theorem externalDispatch_all_not_encap (cfg : Config) (ps : ProvState) (w : World) :
    ((externalDispatch cfg ps w).calls.all fun c => !c.isEncap) = true := by
  unfold externalDispatch ensureRoute throttleStep
  dsimp only
  repeat' split
  all_goals simp [Call.isEncap]

theorem ensureRoute_calls_not_encap (dst : IPNet) (via : Nat) (dev : String)
    (metric table : Option Nat) (rs : List Route) :
    ((ensureRoute dst via dev metric table rs).2.all fun c => !c.isEncap) = true := by
  unfold ensureRoute
  split <;> simp [Call.isEncap]

theorem ensureRule_calls_not_encap (src : IPNet) (table priority : Nat) (rl : List Rule) :
    ((ensureRule src table priority rl).2.all fun c => !c.isEncap) = true := by
  unfold ensureRule
  split <;> simp [Call.isEncap]

theorem sharedRouting_all_not_encap (cfg : Config) (w : World) :
    ((sharedRouting cfg w).calls.all fun c => !c.isEncap) = true := by
  unfold sharedRouting
  repeat' split
  all_goals simp [List.all_append, ensureRoute_calls_not_encap, ensureRule_calls_not_encap]

theorem not_encap_of_mem (l : List Call) (c : Call) (hc : c ∈ l)
    (hall : (l.all fun x => !x.isEncap) = true) : c.isEncap = false := by
  rw [List.all_eq_true] at hall
  have := hall c hc
  simpa using this

set_option maxRecDepth 4000 in
/-- The claim C7 counterexample input: the concrete External pass whose mode
dispatch errors (no bridge address yet). -/
theorem c7_counterexample_setters_on_erroring_pass :
    (RunOnce cfgExternalX ⟨none⟩ worldExtEmpty).res = .error .noBrOvnAddress ∧
    Call.setKubernetesHostNodeName "host1" ∈
      (RunOnce cfgExternalX ⟨none⟩ worldExtEmpty).calls ∧
    Call.setHostName "host1" ∈ (RunOnce cfgExternalX ⟨none⟩ worldExtEmpty).calls ∧
    (∀ ip, Call.setOVNEncapIP ip ∉ (RunOnce cfgExternalX ⟨none⟩ worldExtEmpty).calls) := by
  refine ⟨by decide, by decide, by decide, ?_⟩
  intro ip hmem
  have hcalls : (RunOnce cfgExternalX ⟨none⟩ worldExtEmpty).calls =
      [Call.patchNode "dpu1", Call.setKubernetesHostNodeName "host1",
       Call.setHostName "host1",
       Call.writeFile netplanPath netplanFileContent, Call.netplanApply] := by decide
  rw [hcalls] at hmem
  simp at hmem

/-- Claim C7 (amended): on every pass that clears node bookkeeping, the OVS
host-node-name and hostname setters are invoked unconditionally — even when
the mode dispatch or shared routing later errors — while the encapsulation-IP
setter is invoked exactly on successful passes, as the final call of the
pass. -/
theorem c7_amended_ovs_setters (cfg : Config) (ps : ProvState) (w : World)
    (hp : w.nodePatchOK = true) :
    Call.setKubernetesHostNodeName w.hostNodeName ∈ (RunOnce cfg ps w).calls ∧
    Call.setHostName w.hostNodeName ∈ (RunOnce cfg ps w).calls ∧
    ((RunOnce cfg ps w).res = .ok () →
      ∃ ip, (RunOnce cfg ps w).calls.getLast? = some (Call.setOVNEncapIP ip)) ∧
    (∀ ip, Call.setOVNEncapIP ip ∈ (RunOnce cfg ps w).calls →
      (RunOnce cfg ps w).res = .ok ()) := by
  unfold RunOnce
  rw [hp, if_pos rfl]
  dsimp only
  split
  case _ vtep gw pf =>
    split
    case _ u heq =>
      refine ⟨by simp, by simp, fun _ => ⟨_, List.getLast?_concat _⟩, fun ip hmem => rfl⟩
    case _ e heq =>
      refine ⟨by simp, by simp, fun hok => by simp at hok, ?_⟩
      intro ip hmem
      simp only [List.mem_append, List.mem_cons, List.not_mem_nil] at hmem
      rcases hmem with ((h | h | h | h) | h) | h
      all_goals first
        | (cases h)
        | (exact absurd (not_encap_of_mem _ _ h (internalDispatch_all_not_encap _ _ _ _ _))
            (by simp [Call.isEncap]))
        | (exact absurd (not_encap_of_mem _ _ h (sharedRouting_all_not_encap _ _))
            (by simp [Call.isEncap]))
  case _ disc =>
    split
    case _ encap heq =>
      split
      case _ u heq2 =>
        refine ⟨by simp, by simp, fun _ => ⟨_, List.getLast?_concat _⟩, fun ip hmem => rfl⟩
      case _ e heq2 =>
        refine ⟨by simp, by simp, fun hok => by simp at hok, ?_⟩
        intro ip hmem
        simp only [List.mem_append, List.mem_cons, List.not_mem_nil] at hmem
        rcases hmem with ((h | h | h | h) | h) | h
        all_goals first
          | (cases h)
          | (exact absurd (not_encap_of_mem _ _ h (externalDispatch_all_not_encap _ _ _))
              (by simp [Call.isEncap]))
          | (exact absurd (not_encap_of_mem _ _ h (sharedRouting_all_not_encap _ _))
              (by simp [Call.isEncap]))
    case _ e heq =>
      refine ⟨by simp, by simp, fun hok => by simp at hok, ?_⟩
      intro ip hmem
      simp only [List.mem_append, List.mem_cons, List.not_mem_nil] at hmem
      rcases hmem with (h | h | h | h) | h
      all_goals first
        | (cases h)
        | (exact absurd (not_encap_of_mem _ _ h (externalDispatch_all_not_encap _ _ _))
            (by simp [Call.isEncap]))

/-- Witness for the amended claim C7, on the successful Internal-mode pass. -/
theorem c7_amended_ovs_setters_witness :
    Call.setKubernetesHostNodeName "host1" ∈ (RunOnce cfgInternalX ⟨none⟩ worldX).calls ∧
    Call.setHostName "host1" ∈ (RunOnce cfgInternalX ⟨none⟩ worldX).calls ∧
    (RunOnce cfgInternalX ⟨none⟩ worldX).calls.getLast? =
      some (Call.setOVNEncapIP (mkIP 192 168 1 1)) := by
  have h := c7_amended_ovs_setters cfgInternalX ⟨none⟩ worldX rfl
  exact ⟨h.1, h.2.1, by decide⟩

/-! ## Claim C6 -/

theorem spawnCount_append (a b : List Call) :
    spawnCount (a ++ b) = spawnCount a + spawnCount b :=
  List.countP_append _ _ _

theorem ensureRoute_spawnCount (dst : IPNet) (via : Nat) (dev : String)
    (metric table : Option Nat) (rs : List Route) :
    spawnCount (ensureRoute dst via dev metric table rs).2 = 0 := by
  unfold ensureRoute
  split <;> simp [spawnCount, Call.isSpawn]

theorem ensureRule_spawnCount (src : IPNet) (table priority : Nat) (rl : List Rule) :
    spawnCount (ensureRule src table priority rl).2 = 0 := by
  unfold ensureRule
  split <;> simp [spawnCount, Call.isSpawn]

theorem ensureBrOvnAddr_spawnCount (addr : IPNet) (addrs : List IPNet) :
    spawnCount (ensureBrOvnAddr addr addrs).2 = 0 := by
  unfold ensureBrOvnAddr
  split <;> simp [spawnCount, Call.isSpawn]

theorem sharedRouting_spawnCount (cfg : Config) (w : World) :
    spawnCount (sharedRouting cfg w).calls = 0 := by
  unfold sharedRouting
  repeat' split
  all_goals simp only [spawnCount_append, ensureRoute_spawnCount, ensureRule_spawnCount,
    Nat.add_zero]
  all_goals rfl

theorem internalDispatch_spawnCount (vtep : IPNet) (gw : Nat) (pf : IPNet) (cfg : Config)
    (w : World) :
    spawnCount (internalDispatch vtep gw pf cfg w).calls =
      (if w.dnsmasqAlive then 0 else 1) := by
  unfold internalDispatch
  dsimp only
  rw [spawnCount_append, spawnCount_append, spawnCount_append, spawnCount_append,
    spawnCount_append, ensureBrOvnAddr_spawnCount, ensureRoute_spawnCount]
  have h1 : spawnCount (if cfg.vtepCIDR.maskLen < vtep.maskLen then
      ensureRoute cfg.vtepCIDR gw brOvn none none w.routes else (w.routes, [])).2 = 0 := by
    split
    · exact ensureRoute_spawnCount _ _ _ _ _ _
    · simp [spawnCount]
  rw [h1]
  split <;> simp [spawnCount, Call.isSpawn]

theorem runOnce_internal_spawnCount (cfg : Config) (vtep : IPNet) (gw : Nat) (pf : IPNet)
    (ps : ProvState) (w : World)
    (hm : cfg.mode = .internalIPAM vtep gw pf) (hp : w.nodePatchOK = true) :
    spawnCount (RunOnce cfg ps w).calls = (if w.dnsmasqAlive then 0 else 1) := by
  unfold RunOnce
  rw [hp, if_pos rfl, hm]
  dsimp only
  split
  all_goals
    simp only [spawnCount_append]
    rw [internalDispatch_spawnCount, sharedRouting_spawnCount]
    cases w.dnsmasqAlive <;> rfl

theorem runOnce_internal_world_alive (cfg : Config) (vtep : IPNet) (gw : Nat) (pf : IPNet)
    (ps : ProvState) (w : World)
    (hm : cfg.mode = .internalIPAM vtep gw pf) (hp : w.nodePatchOK = true) :
    (RunOnce cfg ps w).world.dnsmasqAlive = true := by
  rw [runOnce_internal_world cfg vtep gw pf ps w hm hp,
    (sharedRouting_frame _ _).2.2.2.1]
  exact (internalDispatch_frame vtep gw pf cfg w).2.2.2.1

theorem runOnce_internal_world_patchOK (cfg : Config) (vtep : IPNet) (gw : Nat) (pf : IPNet)
    (ps : ProvState) (w : World)
    (hm : cfg.mode = .internalIPAM vtep gw pf) (hp : w.nodePatchOK = true) :
    (RunOnce cfg ps w).world.nodePatchOK = true := by
  rw [runOnce_internal_world cfg vtep gw pf ps w hm hp,
    (sharedRouting_frame _ _).2.2.2.2.2.1,
    (internalDispatch_frame vtep gw pf cfg w).2.2.2.2.1]
  exact hp

theorem runPasses_internal_spawnCount_zero (cfg : Config) (vtep : IPNet) (gw : Nat)
    (pf : IPNet) (d : Nat) (hm : cfg.mode = .internalIPAM vtep gw pf) :
    ∀ (n : Nat) (ps : ProvState) (w : World), w.nodePatchOK = true →
      w.dnsmasqAlive = true → spawnCount (runPasses cfg d n ps w).2.2 = 0 := by
  intro n
  induction n with
  | zero =>
    intro ps w hp hal
    simp [runPasses, spawnCount]
  | succ n ih =>
    intro ps w hp hal
    show spawnCount ((RunOnce cfg ps w).calls ++ _) = 0
    rw [spawnCount_append, runOnce_internal_spawnCount cfg vtep gw pf ps w hm hp,
      if_pos hal, ih _ _ ?_ ?_]
    · show ({ (RunOnce cfg ps w).world with
        now := (RunOnce cfg ps w).world.now + d }).nodePatchOK = true
      exact runOnce_internal_world_patchOK cfg vtep gw pf ps w hm hp
    · show ({ (RunOnce cfg ps w).world with
        now := (RunOnce cfg ps w).world.now + d }).dnsmasqAlive = true
      exact runOnce_internal_world_alive cfg vtep gw pf ps w hm hp

/-- Claim C6: in Internal mode, starting from a world where the DHCP responder
is not yet running, across any positive number of consecutive passes (the
spawned responder stays alive throughout, as nothing in the model terminates
it) the responder spawn command is executed exactly once. -/
theorem c6_dhcp_spawned_exactly_once (cfg : Config) (vtep : IPNet) (gw : Nat) (pf : IPNet)
    (d n : Nat) (ps : ProvState) (w : World)
    (hm : cfg.mode = .internalIPAM vtep gw pf) (hp : w.nodePatchOK = true)
    (hd : w.dnsmasqAlive = false) (hn : 1 ≤ n) :
    spawnCount (runPasses cfg d n ps w).2.2 = 1 := by
  cases n with
  | zero => cases hn
  | succ n =>
    show spawnCount ((RunOnce cfg ps w).calls ++ _) = 1
    rw [spawnCount_append, runOnce_internal_spawnCount cfg vtep gw pf ps w hm hp, hd,
      if_neg (by simp),
      runPasses_internal_spawnCount_zero cfg vtep gw pf d hm n _ _ ?_ ?_]
    · show ({ (RunOnce cfg ps w).world with
        now := (RunOnce cfg ps w).world.now + d }).nodePatchOK = true
      exact runOnce_internal_world_patchOK cfg vtep gw pf ps w hm hp
    · show ({ (RunOnce cfg ps w).world with
        now := (RunOnce cfg ps w).world.now + d }).dnsmasqAlive = true
      exact runOnce_internal_world_alive cfg vtep gw pf ps w hm hp

/-- Witness for claim C6: two consecutive passes on the Internal-mode
scenario spawn the responder exactly once. -/
theorem c6_dhcp_spawned_exactly_once_witness :
    spawnCount (runPasses cfgInternalX 0 2 ⟨none⟩ worldX).2.2 = 1 :=
  c6_dhcp_spawned_exactly_once cfgInternalX vtepX gwX pfX 0 2 ⟨none⟩ worldX rfl rfl rfl
    (by decide)

/-! ## Claim C4 -/

theorem netplanCount_append (a b : List Call) :
    netplanCount (a ++ b) = netplanCount a + netplanCount b :=
  List.countP_append _ _ _

theorem ensureRoute_netplanCount (dst : IPNet) (via : Nat) (dev : String)
    (metric table : Option Nat) (rs : List Route) :
    netplanCount (ensureRoute dst via dev metric table rs).2 = 0 := by
  unfold ensureRoute
  split <;> rfl

theorem ensureRule_netplanCount (src : IPNet) (table priority : Nat) (rl : List Rule) :
    netplanCount (ensureRule src table priority rl).2 = 0 := by
  unfold ensureRule
  split <;> rfl

theorem sharedRouting_netplanCount (cfg : Config) (w : World) :
    netplanCount (sharedRouting cfg w).calls = 0 := by
  unfold sharedRouting
  repeat' split
  all_goals simp only [netplanCount_append, ensureRoute_netplanCount,
    ensureRule_netplanCount, Nat.add_zero]
  all_goals rfl

theorem externalDispatch_netplanCount (cfg : Config) (ps : ProvState) (w : World) :
    netplanCount (externalDispatch cfg ps w).calls =
      (if (throttleStep ps w.now).2 then 1 else 0) := by
  unfold externalDispatch
  rcases hba : w.brOvnAddrs with _ | ⟨x, _ | ⟨y, rest⟩⟩
  all_goals
    dsimp only
    simp only [netplanCount_append, ensureRoute_netplanCount]
    cases (throttleStep ps w.now).2 <;> rfl

theorem externalDispatch_ps (cfg : Config) (ps : ProvState) (w : World) :
    (externalDispatch cfg ps w).ps = (throttleStep ps w.now).1 := by
  unfold externalDispatch
  rcases hba : w.brOvnAddrs with _ | ⟨x, _ | ⟨y, rest⟩⟩ <;> rfl

theorem runOnce_external_netplanCount (cfg : Config) (disc : IPNet) (ps : ProvState)
    (w : World) (hm : cfg.mode = .externalIPAM disc) (hp : w.nodePatchOK = true) :
    netplanCount (RunOnce cfg ps w).calls = (if (throttleStep ps w.now).2 then 1 else 0) := by
  unfold RunOnce
  rw [hp, if_pos rfl, hm]
  dsimp only
  split
  · split
    all_goals
      simp only [netplanCount_append, externalDispatch_netplanCount,
        sharedRouting_netplanCount]
      cases (throttleStep ps w.now).2 <;> rfl
  · simp only [netplanCount_append, externalDispatch_netplanCount]
    cases (throttleStep ps w.now).2 <;> rfl

theorem runOnce_external_ps (cfg : Config) (disc : IPNet) (ps : ProvState) (w : World)
    (hm : cfg.mode = .externalIPAM disc) (hp : w.nodePatchOK = true) :
    (RunOnce cfg ps w).ps = (throttleStep ps w.now).1 := by
  unfold RunOnce
  rw [hp, if_pos rfl, hm]
  dsimp only
  split
  · split <;> exact externalDispatch_ps cfg ps w
  · exact externalDispatch_ps cfg ps w

theorem runOnce_external_world_now (cfg : Config) (disc : IPNet) (ps : ProvState)
    (w : World) (hm : cfg.mode = .externalIPAM disc) (hp : w.nodePatchOK = true) :
    (RunOnce cfg ps w).world.now = w.now := by
  unfold RunOnce
  rw [hp, if_pos rfl, hm]
  dsimp only
  split
  · split
    all_goals
      show (sharedRouting cfg (externalDispatch cfg ps w).world).world.now = w.now
      rw [(sharedRouting_frame _ _).2.2.2.2.2.2.1,
        (externalDispatch_frame cfg ps w).2.2.2.2.2.2.1]
  · show (externalDispatch cfg ps w).world.now = w.now
    rw [(externalDispatch_frame cfg ps w).2.2.2.2.2.2.1]

theorem runOnce_external_world_patchOK (cfg : Config) (disc : IPNet) (ps : ProvState)
    (w : World) (hm : cfg.mode = .externalIPAM disc) (hp : w.nodePatchOK = true) :
    (RunOnce cfg ps w).world.nodePatchOK = true := by
  unfold RunOnce
  rw [hp, if_pos rfl, hm]
  dsimp only
  split
  · split
    all_goals
      show (sharedRouting cfg (externalDispatch cfg ps w).world).world.nodePatchOK = true
      rw [(sharedRouting_frame _ _).2.2.2.2.2.1,
        (externalDispatch_frame cfg ps w).2.2.2.2.2.1]
      exact hp
  · show (externalDispatch cfg ps w).world.nodePatchOK = true
    rw [(externalDispatch_frame cfg ps w).2.2.2.2.2.1]
    exact hp

/-- The pure throttle recursion: the number of applies over `n` passes at
times `t, t + d, ...` starting from a last-apply timestamp `la`. -/
def throttleRun (d : Nat) : Nat → Option Nat → Nat → Nat
  | 0, _, _ => 0
  | n + 1, la, t =>
    (if (throttleStep ⟨la⟩ t).2 then 1 else 0) +
      throttleRun d n (throttleStep ⟨la⟩ t).1.lastApply (t + d)

theorem runPasses_succ_calls (cfg : Config) (d n : Nat) (ps : ProvState) (w : World) :
    (runPasses cfg d (n + 1) ps w).2.2 =
      (RunOnce cfg ps w).calls ++
        (runPasses cfg d n (RunOnce cfg ps w).ps
          { (RunOnce cfg ps w).world with
            now := (RunOnce cfg ps w).world.now + d }).2.2 := rfl

theorem runPasses_external_netplanCount (cfg : Config) (disc : IPNet) (d : Nat)
    (hm : cfg.mode = .externalIPAM disc) :
    ∀ (n : Nat) (ps : ProvState) (w : World), w.nodePatchOK = true →
      netplanCount (runPasses cfg d n ps w).2.2 = throttleRun d n ps.lastApply w.now := by
  intro n
  induction n with
  | zero => intro ps w hp; rfl
  | succ n ih =>
    intro ps w hp
    have hpT : ({ (RunOnce cfg ps w).world with
        now := (RunOnce cfg ps w).world.now + d } : World).nodePatchOK = true :=
      runOnce_external_world_patchOK cfg disc ps w hm hp
    rw [runPasses_succ_calls, netplanCount_append,
      runOnce_external_netplanCount cfg disc ps w hm hp,
      ih (RunOnce cfg ps w).ps
        { (RunOnce cfg ps w).world with now := (RunOnce cfg ps w).world.now + d } hpT]
    have hTnow : ({ (RunOnce cfg ps w).world with
        now := (RunOnce cfg ps w).world.now + d } : World).now = w.now + d := by
      show (RunOnce cfg ps w).world.now + d = w.now + d
      rw [runOnce_external_world_now cfg disc ps w hm hp]
    rw [runOnce_external_ps cfg disc ps w hm hp, hTnow]
    rfl

theorem throttleRun_zero (d : Nat) (la : Option Nat) (t : Nat) :
    throttleRun d 0 la t = 0 := rfl

theorem throttleRun_succ (d n : Nat) (la : Option Nat) (t : Nat) :
    throttleRun d (n + 1) la t =
      (if (throttleStep ⟨la⟩ t).2 then 1 else 0) +
        throttleRun d n (throttleStep ⟨la⟩ t).1.lastApply (t + d) := rfl

theorem throttleRun_succ_none (d n t : Nat) :
    throttleRun d (n + 1) none t = 1 + throttleRun d n (some t) (t + d) := rfl

theorem throttleRun_succ_some_apply (d n s t : Nat) (hc : netplanApplyCooldown ≤ t - s) :
    throttleRun d (n + 1) (some s) t = 1 + throttleRun d n (some t) (t + d) := by
  rw [throttleRun_succ]
  show (if (throttleStep ⟨some s⟩ t).2 then 1 else 0) +
    throttleRun d n (throttleStep ⟨some s⟩ t).1.lastApply (t + d) = _
  have hstep : throttleStep ⟨some s⟩ t = (⟨some t⟩, true) := by
    unfold throttleStep
    exact if_pos hc
  rw [hstep]
  rfl

theorem throttleRun_succ_some_skip (d n s t : Nat) (hc : ¬ netplanApplyCooldown ≤ t - s) :
    throttleRun d (n + 1) (some s) t = throttleRun d n (some s) (t + d) := by
  rw [throttleRun_succ]
  have hstep : throttleStep ⟨some s⟩ t = (⟨some s⟩, false) := by
    unfold throttleStep
    exact if_neg hc
  rw [hstep]
  simp

theorem throttleRun_some_le (d : Nat) :
    ∀ (n s t : Nat), 120 * throttleRun d n (some s) t ≤ (t - s) + (n - 1) * d := by
  intro n
  induction n with
  | zero =>
    intro s t
    rw [throttleRun_zero]
    omega
  | succ n ih =>
    intro s t
    by_cases hc : netplanApplyCooldown ≤ t - s
    · rw [throttleRun_succ_some_apply d n s t hc]
      have hc' : 120 ≤ t - s := hc
      cases n with
      | zero =>
        rw [throttleRun_zero]
        omega
      | succ m =>
        have ihh := ih t (t + d)
        have h1 : t + d - t = d := by omega
        have h2 : m + 1 - 1 = m := rfl
        rw [h1, h2] at ihh
        have h3 : (m + 2 - 1) * d = m * d + d := Nat.succ_mul m d
        rw [h3]
        generalize hK : throttleRun d (m + 1) (some t) (t + d) = K at ihh ⊢
        generalize hmd : m * d = md at ihh ⊢
        omega
    · rw [throttleRun_succ_some_skip d n s t hc]
      have hc' : ¬ (120 ≤ t - s) := hc
      cases n with
      | zero =>
        rw [throttleRun_zero]
        omega
      | succ m =>
        have ihh := ih s (t + d)
        have h2 : m + 1 - 1 = m := rfl
        rw [h2] at ihh
        have h3 : (m + 2 - 1) * d = m * d + d := Nat.succ_mul m d
        rw [h3]
        generalize hK : throttleRun d (m + 1) (some s) (t + d) = K at ihh ⊢
        generalize hmd : m * d = md at ihh ⊢
        omega

theorem throttleRun_le_bound (d n : Nat) (la : Option Nat) (t : Nat) (hn : 1 ≤ n) :
    throttleRun d n la t ≤ (n - 1) * d / netplanApplyCooldown + 1 := by
  have applyBound : ∀ m : Nat,
      120 * (1 + throttleRun d m (some t) (t + d)) ≤ m * d + 120 := by
    intro m
    cases m with
    | zero =>
      rw [throttleRun_zero]
      omega
    | succ j =>
      have ihh := throttleRun_some_le d (j + 1) t (t + d)
      have h1 : t + d - t = d := by omega
      have h2 : j + 1 - 1 = j := rfl
      rw [h1, h2] at ihh
      have h3 : (j + 1) * d = j * d + d := Nat.succ_mul j d
      rw [h3]
      generalize hK : throttleRun d (j + 1) (some t) (t + d) = K at ihh ⊢
      generalize hmd : j * d = md at ihh ⊢
      omega
  have key : 120 * throttleRun d n la t ≤ (n - 1) * d + 120 := by
    cases n with
    | zero => cases hn
    | succ m =>
      have hmm : (m + 1 - 1) * d = m * d := rfl
      rw [hmm]
      cases la with
      | none =>
        rw [throttleRun_succ_none]
        exact applyBound m
      | some s =>
        by_cases hc : netplanApplyCooldown ≤ t - s
        · rw [throttleRun_succ_some_apply d m s t hc]
          exact applyBound m
        · rw [throttleRun_succ_some_skip d m s t hc]
          have hc' : ¬ (120 ≤ t - s) := hc
          cases m with
          | zero =>
            rw [throttleRun_zero]
            omega
          | succ j =>
            have ihh := throttleRun_some_le d (j + 1) s (t + d)
            have h2 : j + 1 - 1 = j := rfl
            rw [h2] at ihh
            have h3 : (j + 1) * d = j * d + d := Nat.succ_mul j d
            rw [h3]
            generalize hK : throttleRun d (j + 1) (some s) (t + d) = K at ihh ⊢
            generalize hmd : j * d = md at ihh ⊢
            omega
  have hdivle : throttleRun d n la t - 1 ≤ (n - 1) * d / netplanApplyCooldown := by
    rw [Nat.le_div_iff_mul_le (by decide : 0 < netplanApplyCooldown)]
    have h120 : netplanApplyCooldown = 120 := rfl
    rw [h120]
    generalize hX : (n - 1) * d = X at key ⊢
    omega
  omega

set_option maxRecDepth 8000 in
/-- Counterexample to claim C4 as stated: three consecutive External-mode
passes spaced 60 seconds apart (shorter than the cooldown) execute the apply
command twice, although total_elapsed = (3-1)·60 = 120 gives
ceil(120 / cooldown) = 1. -/
theorem c4_counterexample_ceil_bound_fails :
    60 < netplanApplyCooldown ∧
    netplanCount (runPasses cfgExternalX 60 3 ⟨none⟩ worldExtEmpty).2.2 = 2 ∧
    ((3 - 1) * 60 + netplanApplyCooldown - 1) / netplanApplyCooldown = 1 ∧
    ¬ (netplanCount (runPasses cfgExternalX 60 3 ⟨none⟩ worldExtEmpty).2.2 ≤
        ((3 - 1) * 60 + netplanApplyCooldown - 1) / netplanApplyCooldown) := by
  decide

/-- Claim C4 (amended): in External mode the apply command is invoked on a
pass only when the cooldown has elapsed since its last invocation (a pass
inside the cooldown window invokes it zero times), regardless of whether the
bridge address has been obtained; consequently across N ≥ 1 passes spaced d
apart the command executes at most floor((N-1)·d / cooldown) + 1 times. -/
theorem c4_amended_apply_throttle_bound (cfg : Config) (disc : IPNet) (d n : Nat)
    (ps : ProvState) (w : World)
    (hm : cfg.mode = .externalIPAM disc) (hp : w.nodePatchOK = true) (hn : 1 ≤ n) :
    (∀ s, ps.lastApply = some s → w.now - s < netplanApplyCooldown →
      netplanCount (RunOnce cfg ps w).calls = 0) ∧
    netplanCount (runPasses cfg d n ps w).2.2 ≤ (n - 1) * d / netplanApplyCooldown + 1 := by
  constructor
  · intro s hs hlt
    rw [runOnce_external_netplanCount cfg disc ps w hm hp]
    have hstep : throttleStep ps w.now = (ps, false) := by
      unfold throttleStep
      rw [hs]
      exact if_neg (by omega)
    rw [hstep]
    rfl
  · rw [runPasses_external_netplanCount cfg disc d hm n ps w hp]
    exact throttleRun_le_bound d n ps.lastApply w.now hn

/-- Witness for the amended claim C4: the cooldown test scenario — four
passes spaced 60 seconds apart execute the apply command at most
floor(180/120) + 1 = 2 times (and a pass 60 seconds after an apply executes
it zero times). -/
theorem c4_amended_apply_throttle_bound_witness :
    (0 - 0 < netplanApplyCooldown →
      netplanCount (RunOnce cfgExternalX ⟨some 0⟩ worldExtEmpty).calls = 0) ∧
    netplanCount (runPasses cfgExternalX 60 4 ⟨none⟩ worldExtEmpty).2.2 ≤
      (4 - 1) * 60 / netplanApplyCooldown + 1 := by
  have h := c4_amended_apply_throttle_bound cfgExternalX ⟨mkIP 169 254 99 100, 32⟩ 60 4
    ⟨none⟩ worldExtEmpty rfl rfl (by decide)
  have h2 := c4_amended_apply_throttle_bound cfgExternalX ⟨mkIP 169 254 99 100, 32⟩ 60 1
    ⟨some 0⟩ worldExtEmpty rfl rfl (by decide)
  exact ⟨fun hlt => h2.1 0 rfl hlt, h.2⟩

/-! ## Claim C3 -/

theorem append_ne_append (n : Nat) (a b t u : String)
    (ha : n ≤ a.data.length) (hb : n ≤ b.data.length)
    (hne : a.data.take n ≠ b.data.take n) : a ++ t ≠ b ++ u := by
  intro h
  apply hne
  have h2 : (a ++ t).data = (b ++ u).data := by rw [h]
  rw [String.data_append, String.data_append] at h2
  have h3 := congrArg (List.take n) h2
  rwa [List.take_append_of_le_length ha, List.take_append_of_le_length hb] at h3

theorem append_ne_lit (n : Nat) (a b t : String)
    (ha : n ≤ a.data.length) (hb : n ≤ b.data.length)
    (hne : a.data.take n ≠ b.data.take n) : a ++ t ≠ b := by
  intro h
  apply append_ne_append n a b t "" ha hb hne
  rw [h]
  simp

/-- Claim C3: the DHCP responder argument list contains the
classless-static-route option (advertising the configured VTEP CIDR via the
gateway) if and only if the configured VTEP CIDR's prefix length is strictly
smaller — a wider network — than the VTEP IP's own prefix length. -/
theorem c3_classless_route_iff (vtep : IPNet) (gw : Nat) (pf : IPNet) (vtepCIDR : IPNet)
    (mtu : Nat) (mac : String) :
    classlessRouteOpt vtepCIDR gw ∈ dnsmasqArgs vtep gw pf vtepCIDR mtu mac ↔
      vtepCIDR.maskLen < vtep.maskLen := by
  unfold dnsmasqArgs
  constructor
  · intro h
    by_contra hc
    rw [if_neg hc] at h
    unfold classlessRouteOpt at h
    simp only [List.append_nil, List.mem_cons, List.not_mem_nil, or_false] at h
    rcases h with h | h | h | h | h | h | h | h
    · exact append_ne_lit 3 _ _ _ (by decide) (by decide) (by decide) h
    · exact append_ne_lit 3 _ _ _ (by decide) (by decide) (by decide) h
    · exact append_ne_lit 3 _ _ _ (by decide) (by decide) (by decide) h
    · exact append_ne_lit 3 _ _ _ (by decide) (by decide) (by decide) h
    · exact append_ne_lit 22 _ _ _ (by decide) (by decide) (by decide) h
    · exact append_ne_append 22 _ _ _ _ (by decide) (by decide) (by decide) h
    · exact append_ne_append 8 _ _ _ _ (by decide) (by decide) (by decide) h
    · exact append_ne_append 8 _ _ _ _ (by decide) (by decide) (by decide) h
  · intro h
    rw [if_pos h]
    simp

/-- Witness for claim C3: with VTEP IP 192.168.1.1/24, the option is present
for the wider configured CIDR 192.168.1.0/23 and absent for the equal-prefix
CIDR 192.168.1.0/24. -/
theorem c3_classless_route_iff_witness :
    classlessRouteOpt ⟨mkIP 192 168 1 0, 23⟩ gwX ∈
      dnsmasqArgs vtepX gwX pfX ⟨mkIP 192 168 1 0, 23⟩ 8940 "00:00:00:00:00:01" ∧
    classlessRouteOpt ⟨mkIP 192 168 1 0, 24⟩ gwX ∉
      dnsmasqArgs vtepX gwX pfX ⟨mkIP 192 168 1 0, 24⟩ 1440 "00:00:00:00:00:01" :=
  ⟨(c3_classless_route_iff vtepX gwX pfX ⟨mkIP 192 168 1 0, 23⟩ 8940
      "00:00:00:00:00:01").mpr (by decide),
   fun h => absurd ((c3_classless_route_iff vtepX gwX pfX ⟨mkIP 192 168 1 0, 24⟩ 1440
      "00:00:00:00:00:01").mp h) (by decide)⟩

/-! ## Part 2: the Pod admission webhook (webhook.go)

The webhook's two Kubernetes-client reads — `getVFResourceName` (a
NetworkAttachmentDefinition annotation lookup) and `shouldSkipInjection` (a
node-list scan) — are I/O; their outcomes are passed to `Default` as `Except`
parameters.  Everything else is embedded structurally from the source. -/

/-- A resource map (`corev1.ResourceList`) as an association list from
resource names to quantities. -/
def assocGet {β : Type} (l : List (String × β)) (k : String) : Option β :=
  match l with
  | [] => none
  | p :: rest => if p.1 = k then some p.2 else assocGet rest k

/-- Map update: replace the value at the key, or append the binding. -/
def assocSet {β : Type} (l : List (String × β)) (k : String) (v : β) :
    List (String × β) :=
  match l with
  | [] => [(k, v)]
  | p :: rest => if p.1 = k then (p.1, v) :: rest else p :: assocSet rest k v

theorem assocGet_assocSet_self {β : Type} (l : List (String × β)) (k : String) (v : β) :
    assocGet (assocSet l k v) k = some v := by
  induction l with
  | nil => simp [assocGet, assocSet]
  | cons p rest ih =>
    unfold assocSet
    by_cases h : p.1 = k
    · rw [if_pos h]
      simp [assocGet, h]
    · rw [if_neg h]
      simp [assocGet, h, ih]

theorem assocGet_assocSet_ne {β : Type} (l : List (String × β)) (k k2 : String) (v : β)
    (hne : k2 ≠ k) : assocGet (assocSet l k v) k2 = assocGet l k2 := by
  induction l with
  | nil =>
    simp only [assocGet, assocSet]
    rw [if_neg (fun h => hne h.symm)]
  | cons p rest ih =>
    unfold assocSet
    by_cases h : p.1 = k
    · rw [if_pos h]
      have h2 : ¬ p.1 = k2 := by
        rw [h]
        exact fun hx => hne hx.symm
      simp [assocGet, h2]
    · rw [if_neg h]
      simp only [assocGet]
      split
      · rfl
      · exact ih

/-- `corev1.ResourceRequirements`: requests and limits, each a possibly-nil
map (none models Go's nil map). -/
structure ResourceRequirements where
  requests : Option (List (String × Int))
  limits : Option (List (String × Int))
deriving DecidableEq, Repr

/-- A Pod container: name and resources. -/
structure Container where
  name : String
  resources : ResourceRequirements
deriving DecidableEq, Repr

/-- `corev1.NodeSelectorRequirement`: key, operator (as its string form) and
values. -/
structure NodeSelectorRequirement where
  key : String
  op : String
  values : List String
deriving DecidableEq, Repr

/-- `corev1.NodeSelectorTerm`. -/
structure NodeSelectorTerm where
  matchExpressions : List NodeSelectorRequirement
deriving DecidableEq, Repr

/-- `corev1.NodeSelector`. -/
structure NodeSelector where
  nodeSelectorTerms : List NodeSelectorTerm
deriving DecidableEq, Repr

/-- `corev1.NodeAffinity` (only the required-during-scheduling selector is
touched by the webhook). -/
structure NodeAffinity where
  required : Option NodeSelector
deriving DecidableEq, Repr

/-- `corev1.Affinity` (only node affinity is touched by the webhook). -/
structure Affinity where
  nodeAffinity : Option NodeAffinity
deriving DecidableEq, Repr

/-- The parts of a `corev1.Pod` the webhook reads or mutates. -/
structure Pod where
  name : String
  hostNetwork : Bool
  annotations : Option (List (String × String))
  containers : List Container
  affinity : Option Affinity
deriving DecidableEq, Repr

/-- The Network Injector settings (`NetworkInjectorSettings`). -/
structure NetworkInjectorSettings where
  NADName : String
  NADNamespace : String
  DPUHostLabelKey : String
  DPUHostLabelValue : String
  PrioritizeOffloading : Bool
deriving DecidableEq, Repr

/-- The Network Injector webhook (`NetworkInjector`); its Kubernetes client is
modelled by the `Except` parameters of `Default`. -/
structure NetworkInjector where
  Settings : NetworkInjectorSettings

/-- The multus annotation key injected on pods
(`v1.multus-cni.io/default-network`). -/
def annotationKeyToBeInjected : String := "v1.multus-cni.io/default-network"

/-- `podHasVFResources`: the pod already carries the VF resource in the first
container's requests or limits. -/
def podHasVFResources (pod : Pod) (vfResourceName : String) : Bool :=
  match pod.containers with
  | [] => false
  | c :: _ =>
    (match c.resources.requests with
     | some rl => (assocGet rl vfResourceName).isSome
     | none => false) ||
    (match c.resources.limits with
     | some rl => (assocGet rl vfResourceName).isSome
     | none => false)

/-- Whether a node selector term already excludes DPU nodes: some expression
on the DPU label key is `DoesNotExist`, or is `NotIn` with the DPU label
value among its values. -/
def termHasDPUExclusion (key value : String) (t : NodeSelectorTerm) : Bool :=
  t.matchExpressions.any fun e =>
    e.key == key && (e.op == "DoesNotExist" || (e.op == "NotIn" && e.values.contains value))

/-- The `NotIn` requirement excluding DPU nodes. -/
def excludeDPUReq (key value : String) : NodeSelectorRequirement :=
  ⟨key, "NotIn", [value]⟩

/-- `addAffinityForNonDPUNodes`: patch the pod's required node affinity so
every term excludes nodes carrying the DPU label. -/
def addAffinityForNonDPUNodes (key value : String) (pod : Pod) : Pod :=
  let sel : NodeSelector :=
    match pod.affinity with
    | some a =>
      match a.nodeAffinity with
      | some na =>
        match na.required with
        | some s => s
        | none => ⟨[]⟩
      | none => ⟨[]⟩
    | none => ⟨[]⟩
  let newTerms :=
    if sel.nodeSelectorTerms = [] then [⟨[excludeDPUReq key value]⟩]
    else sel.nodeSelectorTerms.map fun t =>
      if termHasDPUExclusion key value t then t
      else ⟨t.matchExpressions ++ [excludeDPUReq key value]⟩
  { pod with affinity := some ⟨some ⟨some ⟨newTerms⟩⟩⟩ }

/-- `injectNetworkResources`: in the first container, increment (or create
with quantity 1) the VF resource in both requests and limits, and set the
multus default-network annotation to `<namespace>/<name>`, overwriting any
existing value.  `none` models the Go panic on a pod with no containers. -/
def injectNetworkResources (netAttachDefName netAttachDefNamespace vfResourceName : String)
    (pod : Pod) : Option Pod :=
  match pod.containers with
  | [] => none
  | c :: rest =>
    let reqs := c.resources.requests.getD []
    let lims := c.resources.limits.getD []
    let reqs2 :=
      match assocGet reqs vfResourceName with
      | some q => assocSet reqs vfResourceName (q + 1)
      | none => assocSet reqs vfResourceName 1
    let lims2 :=
      match assocGet lims vfResourceName with
      | some q => assocSet lims vfResourceName (q + 1)
      | none => assocSet lims vfResourceName 1
    let anns2 := assocSet (pod.annotations.getD []) annotationKeyToBeInjected
      (netAttachDefNamespace ++ "/" ++ netAttachDefName)
    some { pod with
      containers := { c with resources := ⟨some reqs2, some lims2⟩ } :: rest,
      annotations := some anns2 }

/-- `NetworkInjector.Default`: the mutating admission entry point.
`vfResourceNameResult` stands for the outcome of `getVFResourceName` (a
client read of the NetworkAttachmentDefinition) and `skipInjectionResult` for
the outcome of `shouldSkipInjection` (a client scan of the node list,
returning the skip-injection and add-affinity decisions). -/
def NetworkInjector.Default (wh : NetworkInjector)
    (vfResourceNameResult : Except String String)
    (skipInjectionResult : Except String (Bool × Bool)) (pod : Pod) :
    Except String Pod :=
  if pod.hostNetwork then .ok pod
  else
    match vfResourceNameResult with
    | .error e => .error e
    | .ok vfResourceName =>
      if podHasVFResources pod vfResourceName then
        match injectNetworkResources wh.Settings.NADName wh.Settings.NADNamespace
            vfResourceName pod with
        | some p => .ok p
        | none => .error "index out of range"
      else
        match skipInjectionResult with
        | .error e => .error e
        | .ok (skipInjection, shouldAddAffinityForNonDPUNodes) =>
          let pod2 :=
            if shouldAddAffinityForNonDPUNodes then
              addAffinityForNonDPUNodes wh.Settings.DPUHostLabelKey
                wh.Settings.DPUHostLabelValue pod
            else pod
          if skipInjection then .ok pod2
          else
            match injectNetworkResources wh.Settings.NADName wh.Settings.NADNamespace
                vfResourceName pod2 with
            | some p => .ok p
            | none => .error "index out of range"

/-! ## Claim C9 -/

/-- Claim C9: for every Pod with `spec.hostNetwork = true`, the webhook's
`Default` method returns successfully with the Pod completely unmodified —
whatever the outcomes of the client reads would have been: no multus
annotation is added and no VF resources are injected. -/
theorem c9_host_network_pod_untouched (wh : NetworkInjector)
    (vfResourceNameResult : Except String String)
    (skipInjectionResult : Except String (Bool × Bool)) (pod : Pod)
    (h : pod.hostNetwork = true) :
    wh.Default vfResourceNameResult skipInjectionResult pod = .ok pod := by
  unfold NetworkInjector.Default
  rw [h, if_pos rfl]

/-- The hostNetwork test pod. -/
def podHostNetwork : Pod :=
  { name := "test-pod-hostnetwork", hostNetwork := true, annotations := none,
    containers := [⟨"test-container", ⟨none, none⟩⟩], affinity := none }

/-- The injector settings used by the test suite. -/
def settingsX : NetworkInjectorSettings :=
  ⟨"dpf-ovn-kubernetes", "test-namespace", "k8s.ovn.org/dpu-host", "", true⟩

/-- Witness for claim C9, at the hostNetwork test pod. -/
theorem c9_host_network_pod_untouched_witness :
    NetworkInjector.Default ⟨settingsX⟩ (.ok "nvidia.com/bf3-p0-vfs") (.ok (false, false))
      podHostNetwork = .ok podHostNetwork :=
  c9_host_network_pod_untouched ⟨settingsX⟩ (.ok "nvidia.com/bf3-p0-vfs")
    (.ok (false, false)) podHostNetwork rfl

/-! ## Claim C10 -/

/-- Claim C10: when the webhook injects, only the first container is mutated:
its VF request and limit quantities each become the previous quantity plus one
(one when absent), the multus default-network annotation is set to
`<NADNamespace>/<NADName>` overwriting any existing value while all other
annotations are preserved, the remaining containers and all other pod fields
are untouched, and the has-VF-resources check reads only the first
container. -/
theorem c10_inject_touches_first_container_only
    (netAttachDefName netAttachDefNamespace vfResourceName : String)
    (pod : Pod) (c : Container) (rest : List Container)
    (h : pod.containers = c :: rest) :
    ∃ c2,
      injectNetworkResources netAttachDefName netAttachDefNamespace vfResourceName pod =
        some { pod with
          containers := c2 :: rest,
          annotations := some (assocSet (pod.annotations.getD [])
            annotationKeyToBeInjected (netAttachDefNamespace ++ "/" ++ netAttachDefName)) } ∧
      assocGet (c2.resources.requests.getD []) vfResourceName =
        some ((assocGet (c.resources.requests.getD []) vfResourceName).getD 0 + 1) ∧
      assocGet (c2.resources.limits.getD []) vfResourceName =
        some ((assocGet (c.resources.limits.getD []) vfResourceName).getD 0 + 1) ∧
      assocGet (assocSet (pod.annotations.getD []) annotationKeyToBeInjected
          (netAttachDefNamespace ++ "/" ++ netAttachDefName)) annotationKeyToBeInjected =
        some (netAttachDefNamespace ++ "/" ++ netAttachDefName) ∧
      (∀ k, k ≠ annotationKeyToBeInjected →
        assocGet (assocSet (pod.annotations.getD []) annotationKeyToBeInjected
            (netAttachDefNamespace ++ "/" ++ netAttachDefName)) k =
          assocGet (pod.annotations.getD []) k) ∧
      podHasVFResources pod vfResourceName =
        podHasVFResources { pod with containers := [c] } vfResourceName := by
  refine ⟨{ c with resources :=
    ⟨some (match assocGet (c.resources.requests.getD []) vfResourceName with
           | some q => assocSet (c.resources.requests.getD []) vfResourceName (q + 1)
           | none => assocSet (c.resources.requests.getD []) vfResourceName 1),
     some (match assocGet (c.resources.limits.getD []) vfResourceName with
           | some q => assocSet (c.resources.limits.getD []) vfResourceName (q + 1)
           | none => assocSet (c.resources.limits.getD []) vfResourceName 1)⟩ },
    ?_, ?_, ?_, ?_, ?_, ?_⟩
  · unfold injectNetworkResources
    rw [h]
  · dsimp only
    rcases hq : assocGet (c.resources.requests.getD []) vfResourceName with _ | q <;>
      simp [assocGet_assocSet_self]
  · dsimp only
    rcases hq : assocGet (c.resources.limits.getD []) vfResourceName with _ | q <;>
      simp [assocGet_assocSet_self]
  · exact assocGet_assocSet_self _ _ _
  · intro k hk
    exact assocGet_assocSet_ne _ _ _ _ hk
  · unfold podHasVFResources
    rw [h]

/-- The test pod with an existing VF resource of quantity 1 in both requests
and limits, and a pre-existing multus annotation. -/
def containerWithVF : Container :=
  ⟨"test-container", ⟨some [("nvidia.com/bf3-p0-vfs", 1)],
    some [("nvidia.com/bf3-p0-vfs", 1)]⟩⟩

/-- The test pod carrying `containerWithVF` and a pre-existing multus
annotation pointing at another NAD. -/
def podWithVF : Pod :=
  { name := "test-pod-with-resources", hostNetwork := false,
    annotations := some [("v1.multus-cni.io/default-network",
      "some-other-namespace/some-other-nad")],
    containers := [containerWithVF], affinity := none }

/-- Witness for claim C10: injecting into a pod that already requests one VF
yields quantity 2 (incremented, not reset), and the multus annotation is
overwritten with `test-namespace/dpf-ovn-kubernetes`. -/
theorem c10_inject_touches_first_container_only_witness :
    ∃ c2,
      injectNetworkResources "dpf-ovn-kubernetes" "test-namespace" "nvidia.com/bf3-p0-vfs"
          podWithVF =
        some { podWithVF with
          containers := [c2],
          annotations := some [("v1.multus-cni.io/default-network",
            "test-namespace/dpf-ovn-kubernetes")] } ∧
      assocGet (c2.resources.requests.getD []) "nvidia.com/bf3-p0-vfs" = some 2 ∧
      assocGet (c2.resources.limits.getD []) "nvidia.com/bf3-p0-vfs" = some 2 := by
  obtain ⟨c2, heq, hreq, hlim, _, _, _⟩ :=
    c10_inject_touches_first_container_only "dpf-ovn-kubernetes" "test-namespace"
      "nvidia.com/bf3-p0-vfs" podWithVF containerWithVF [] rfl
  refine ⟨c2, ?_, hreq.trans (by decide), hlim.trans (by decide)⟩
  rw [heq]
  have hann2 : assocSet (podWithVF.annotations.getD []) annotationKeyToBeInjected
      ("test-namespace" ++ "/" ++ "dpf-ovn-kubernetes") =
      [("v1.multus-cni.io/default-network", "test-namespace/dpf-ovn-kubernetes")] := by
    decide
  rw [hann2]
